import Mathlib

/-!
skrypt_procesy: a log-watching process supervisor.

Shallow embedding of the monitor of `v2.go` (and of the `killProcess` and the
shutdown arm of the loop of `procesy.go`).  The monitor state is the mutable part of the Go `Monitor`
struct.  Everything the operating system decides (whether a signal can be
delivered, which arm of a `select` fires, what `os.Stat` and `time.Now`
return, whether `Start` succeeds) is passed in as an explicit outcome, and
every function returns its result, the new state and the trace of the calls
and system operations it performed.  `fmt.Printf` / `log.Printf` output is
not part of the model.

Time instants (`time.Time`) are integers counting nanoseconds from the zero
instant of `time.Time`, durations (`time.Duration`) are integers counting
nanoseconds; the monotonic and the wall clock are taken to agree.
-/

namespace SkryptProcesy

deriving instance DecidableEq for Except

/-! ## Time -/

/-- Largest `time.Duration` (an int64 count of nanoseconds). -/
def maxDuration : Int := 9223372036854775807

/-- Smallest `time.Duration`. -/
def minDuration : Int := -9223372036854775808

/-- Go's `t.Sub(u)`: the difference of two instants, saturated to the range of
`time.Duration`. -/
def Sub (t u : Int) : Int :=
  if t - u > maxDuration then maxDuration
  else if t - u < minDuration then minDuration
  else t - u

/-- Go's `time.Since(t)`, which is `time.Now().Sub(t)`; `now` is the value
`time.Now()` returns. -/
def Since (now t : Int) : Int := Sub now t

/-- Go's `t.IsZero()`. -/
def IsZero (t : Int) : Bool := t == 0

/-- Go's `t.After(u)`. -/
def After (t u : Int) : Bool := decide (u < t)

/-- One second as a `time.Duration`. -/
def Second : Int := 1000000000

/-- Conversion of an integer to int64 with wrap-around, as Go's int64
multiplication does. -/
def wrap64 (x : Int) : Int := (x + 9223372036854775808) % 18446744073709551616 - 9223372036854775808

/-! ## State -/

/-- The part of `exec.Cmd` the monitor reads: `Process` is `nil` until `Start`
has succeeded, afterwards it is the OS process (identified by its pid). -/
structure Cmd where
  Process : Option Nat
deriving DecidableEq, Repr

/-- The Go `Monitor` struct.  `cancelled` is the state of `ctx` (true once
`cancel` was called); the mutex carries no data. -/
structure Monitor where
  command : String
  logFile : String
  timeout : Int
  interval : Int
  process : Option Cmd
  lastModTime : Int
  lastLogSize : Int
  cancelled : Bool
deriving DecidableEq, Repr

/-- Calls and system operations a monitor function performs, in order. -/
inductive Event where
  | isProcessRunning
  | signal0 (pid : Nat)
  | checkLogs
  | stat
  | startProcess
  | spawn
  | killProcessUnsafe
  | sigterm (pid : Nat)
  | waitGrace
  | sigkill (pid : Nat)
  | waitForced
  | killProcess
  | wait
deriving DecidableEq, Repr

/-- Result of running a monitor function: returned value, state afterwards,
trace of what was done. -/
structure Step (α : Type) where
  val : α
  state : Monitor
  trace : List Event

/-- What the system does during one `killProcessUnsafe`: whether SIGTERM could
be sent, whether the child exited before the 5 s timer, whether after SIGKILL
it was reaped before the 2 s timer. -/
structure KillOutcome where
  sigtermOk : Bool
  exitedInGrace : Bool
  reapedAfterKill : Bool
deriving DecidableEq, Repr

/-- What the system does during one `startProcess`: the outcome of the kill of
a previous child, the result of `Start` (`none`: error, `some pid`: started)
and the value of `time.Now()`. -/
structure StartOutcome where
  kill : KillOutcome
  spawn : Option Nat
  now : Int
deriving DecidableEq, Repr

/-- What the system does during one tick: result of the signal-0 probe, result
of `os.Stat` on the log file (`none`: error, `some (modTime, size)`), the value
of `time.Now()` inside `checkLogs`, and the outcomes of a restart. -/
structure TickOutcome where
  probeOk : Bool
  stat : Option (Int × Int)
  now : Int
  start : StartOutcome
deriving DecidableEq, Repr

/-! ## The monitor of v2.go -/

/-- `NewMonitor` of v2.go: seconds are converted to `time.Duration` by an int64
multiplication. -/
def NewMonitor (command logFile : String) (timeout interval : Int) : Monitor :=
  { command := command
    logFile := logFile
    timeout := wrap64 (timeout * Second)
    interval := wrap64 (interval * Second)
    process := none
    lastModTime := 0
    lastLogSize := 0
    cancelled := false }

/-- `getLogInfo` of v2.go: `st` is what `os.Stat` gives; an error yields the
zero time, size 0 and the error. -/
def getLogInfo (st : Option (Int × Int)) : Except String (Int × Int) :=
  match st with
  | none => .error "stat"
  | some info => .ok info

/-- `checkLogs` of v2.go.  `.error _` is the `(false, err)` return, `.ok true`
is "active", `.ok false` is "stale".  `now` is the value of `time.Now()`
(lines 72 and 86 read the clock, at most one of them on any path). -/
def checkLogs (m : Monitor) (st : Option (Int × Int)) (now : Int) : Step (Except String Bool) :=
  match getLogInfo st with
  | .error e =>
    { val := .error ("nie można odczytać pliku logów: " ++ e), state := m,
      trace := [Event.checkLogs, Event.stat] }
  | .ok (modTime, size) =>
    if IsZero m.lastModTime then
      { val := .ok true, state := { m with lastModTime := modTime, lastLogSize := size },
        trace := [Event.checkLogs, Event.stat] }
    else if size > m.lastLogSize then
      { val := .ok true, state := { m with lastModTime := now, lastLogSize := size },
        trace := [Event.checkLogs, Event.stat] }
    else if After modTime m.lastModTime then
      { val := .ok true, state := { m with lastModTime := modTime, lastLogSize := size },
        trace := [Event.checkLogs, Event.stat] }
    else if Since now m.lastModTime > m.timeout then
      { val := .ok false, state := m, trace := [Event.checkLogs, Event.stat] }
    else
      { val := .ok true, state := m, trace := [Event.checkLogs, Event.stat] }

/-- `killProcessUnsafe` of v2.go.  After the 5 s timer the test
`m.process.Process != nil` of line 164 is true, as `Process` was non-nil at
line 133 and nothing assigns it in between. -/
def killProcessUnsafe (m : Monitor) (k : KillOutcome) : Step Unit :=
  match m.process with
  | none => { val := (), state := m, trace := [Event.killProcessUnsafe] }
  | some c =>
    match c.Process with
    | none => { val := (), state := m, trace := [Event.killProcessUnsafe] }
    | some pid =>
      if !k.sigtermOk then
        { val := (), state := m, trace := [Event.killProcessUnsafe, Event.sigterm pid] }
      else if k.exitedInGrace then
        { val := (), state := { m with process := none },
          trace := [Event.killProcessUnsafe, Event.sigterm pid, Event.waitGrace] }
      else
        { val := (), state := { m with process := none },
          trace := [Event.killProcessUnsafe, Event.sigterm pid, Event.waitGrace,
                    Event.sigkill pid, Event.waitForced] }

/-- `killProcess` of v2.go: `killProcessUnsafe` under the lock. -/
def killProcess (m : Monitor) (k : KillOutcome) : Step Unit :=
  killProcessUnsafe m k

/-- `startProcess` of v2.go.  `.ok ()` is the `nil` return. -/
def startProcess (m : Monitor) (o : StartOutcome) : Step (Except String Unit) :=
  let killed : Step Unit :=
    if m.process ≠ none then killProcessUnsafe m o.kill
    else { val := (), state := m, trace := [] }
  match o.spawn with
  | none =>
    { val := .error "nie można uruchomić procesu",
      state := { killed.state with process := some { Process := none } },
      trace := Event.startProcess :: killed.trace ++ [Event.spawn] }
  | some pid =>
    { val := .ok (),
      state := { killed.state with process := some { Process := some pid }, lastModTime := o.now },
      trace := Event.startProcess :: killed.trace ++ [Event.spawn] }

/-- `isProcessRunning` of v2.go. -/
def isProcessRunning (m : Monitor) (probeOk : Bool) : Step Bool :=
  match m.process with
  | none => { val := false, state := m, trace := [Event.isProcessRunning] }
  | some c =>
    match c.Process with
    | none => { val := false, state := m, trace := [Event.isProcessRunning] }
    | some pid =>
      if m.cancelled then
        { val := false, state := m, trace := [Event.isProcessRunning] }
      else if probeOk then
        { val := true, state := m, trace := [Event.isProcessRunning, Event.signal0 pid] }
      else
        { val := false, state := { m with process := none },
          trace := [Event.isProcessRunning, Event.signal0 pid] }

/-- The `case <-ticker.C` arm of the loop of `Run` in v2.go: one tick. -/
def tick (m : Monitor) (o : TickOutcome) : Step Unit :=
  let alive := isProcessRunning m o.probeOk
  if !alive.val then
    let started := startProcess alive.state o.start
    { val := (), state := started.state, trace := alive.trace ++ started.trace }
  else
    let checked := checkLogs alive.state o.stat o.now
    match checked.val with
    | .error _ => { val := (), state := checked.state, trace := alive.trace ++ checked.trace }
    | .ok true => { val := (), state := checked.state, trace := alive.trace ++ checked.trace }
    | .ok false =>
      let started := startProcess checked.state o.start
      { val := (), state := started.state,
        trace := alive.trace ++ checked.trace ++ started.trace }

/-- A sequence of ticks: the state after each tick is the state before the
next; the result lists the trace of every tick. -/
def ticks (m : Monitor) : List TickOutcome → Monitor × List (List Event)
  | [] => (m, [])
  | o :: os =>
    let s := tick m o
    let r := ticks s.state os
    (r.1, s.trace :: r.2)

/-- The monitor holds a process: the negation of the test
`m.process == nil || m.process.Process == nil` with which `killProcessUnsafe`
and `isProcessRunning` decide that there is nothing to signal. -/
def holdsProcess (m : Monitor) : Bool :=
  match m.process with
  | none => false
  | some c => c.Process.isSome

/-! ## The killProcess of procesy.go -/

/-- `killProcess` of procesy.go.  It differs from `killProcessUnsafe` of v2.go
after the 5 s timer: SIGKILL is followed by an unbounded `Wait`, which returns
only when the child is reaped (`k.reapedAfterKill`); `none` stands for the
call that never returns. -/
def Procesy.killProcess (m : Monitor) (k : KillOutcome) : Option (Step Unit) :=
  match m.process with
  | none => some { val := (), state := m, trace := [Event.killProcess] }
  | some c =>
    match c.Process with
    | none => some { val := (), state := m, trace := [Event.killProcess] }
    | some pid =>
      if !k.sigtermOk then
        some { val := (), state := m, trace := [Event.killProcess, Event.sigterm pid] }
      else if k.exitedInGrace then
        some { val := (), state := { m with process := none },
               trace := [Event.killProcess, Event.sigterm pid, Event.waitGrace] }
      else if k.reapedAfterKill then
        some { val := (), state := { m with process := none },
               trace := [Event.killProcess, Event.sigterm pid, Event.waitGrace,
                         Event.sigkill pid, Event.wait] }
      else none

/-! ## Vocabulary of the properties -/

/-- A tick performed a restart: `startProcess` was called during it. -/
def restarted (tr : List Event) : Bool := decide (Event.startProcess ∈ tr)

/-- A tick on which the child is alive and the log file is as given: the probe
succeeds and `os.Stat` returns `(modTime, size)` at time `t`; should the tick
restart, the new child `pid` is started at the same instant `t`. -/
def quietTick (modTime size t : Int) (k : KillOutcome) (pid : Nat) : TickOutcome :=
  { probeOk := true, stat := some (modTime, size), now := t,
    start := { kill := k, spawn := some pid, now := t } }

/-- Hypotheses of the steady-growth property on a sequence of ticks, in the
words of the specification: on every tick the probe and `os.Stat` succeed, the
tick is later than the previous one (`prevTime`), the observed size is not
below the previously observed one (`prevSize`, `none` before the first tick),
and the tick is at most `timeout` after `lastGrow`, the most recent tick at
which the observed size strictly grew (the start, if there is none yet). -/
def steadyLog (timeout lastGrow prevTime : Int) (prevSize : Option Int) :
    List TickOutcome → Bool
  | [] => true
  | o :: os =>
    match o.stat with
    | none => false
    | some (_, size) =>
      let grew : Bool := match prevSize with
        | none => false
        | some p => decide (p < size)
      let notShrunk : Bool := match prevSize with
        | none => true
        | some p => decide (p ≤ size)
      let lg : Int := if grew then o.now else lastGrow
      o.probeOk && decide (prevTime < o.now) && notShrunk && decide (o.now - lg ≤ timeout)
        && steadyLog timeout lg o.now (some size) os

/-- Outcome of a kill in which the child exits on SIGTERM. -/
def gracefulKill : KillOutcome :=
  { sigtermOk := true, exitedInGrace := true, reapedAfterKill := true }

/-- Outcome of a `startProcess` that starts child `pid` at instant `t`. -/
def startAt (t : Int) (pid : Nat) : StartOutcome :=
  { kill := gracefulKill, spawn := some pid, now := t }

/-- A monitor with timeout 10 s and interval 2 s in the course of a restart:
its first child was started at 100 s, at 102 s the log had grown to 1000 bytes,
and at 104 s the probe found the child gone (the handle is cleared, the
baseline size is still 1000).  The log lives on a file server whose clock is
about 30 s behind, so its modification times are that much in the past. -/
def crashedAfterGrowth : Monitor :=
  (isProcessRunning
    (tick (startProcess (NewMonitor "cmd > app.log" "app.log" 10 2) (startAt (100 * Second) 4242)).state
      { probeOk := true, stat := some (71 * Second, 1000), now := 102 * Second,
        start := startAt (102 * Second) 4243 }).state
    false).state

/-- Six ticks, 2 s apart, after the restart at 104 s: the new child has
truncated the log and it grows by 10 bytes between any two ticks, up to 60
bytes at 116 s; the modification times reported are 30 s behind. -/
def growingBelowBaseline : List TickOutcome :=
  [ quietTick (75 * Second) 10 (106 * Second) gracefulKill 4245,
    quietTick (77 * Second) 20 (108 * Second) gracefulKill 4246,
    quietTick (79 * Second) 30 (110 * Second) gracefulKill 4247,
    quietTick (81 * Second) 40 (112 * Second) gracefulKill 4248,
    quietTick (83 * Second) 50 (114 * Second) gracefulKill 4249,
    quietTick (85 * Second) 60 (116 * Second) gracefulKill 4250 ]

/-- Five ticks, 2 s apart, after a first start at 100 s: the log is empty on
the first two ticks and has 5 bytes from the third on. -/
def slowlyGrowing : List TickOutcome :=
  [ quietTick (50 * Second) 0 (102 * Second) gracefulKill 4245,
    quietTick (50 * Second) 0 (104 * Second) gracefulKill 4246,
    quietTick (50 * Second) 5 (106 * Second) gracefulKill 4247,
    quietTick (50 * Second) 5 (108 * Second) gracefulKill 4248,
    quietTick (50 * Second) 5 (116 * Second) gracefulKill 4249 ]

/-- The monitor with timeout 10 s and interval 2 s right after its first
successful start at 100 s (baseline size 0). -/
def freshlyStarted : Monitor :=
  (startProcess (NewMonitor "cmd" "app.log" 10 2) (startAt (100 * Second) 4242)).state

/-- Outcome of a `startProcess` whose `Start` fails at instant `t`. -/
def failAt (t : Int) : StartOutcome :=
  { kill := gracefulKill, spawn := none, now := t }

/-- A tick at instant `t` on which a restart, if attempted, fails to start the
child. -/
def failingTick (t : Int) : TickOutcome :=
  { probeOk := true, stat := some (50 * Second, 0), now := t, start := failAt t }

/-! ## The loop of Run in v2.go -/

/-- What the `select` of the loop of `Run` receives on one iteration: a signal
on `sigChan`, the closing of `m.ctx.Done()` (which can only be received once
the context is cancelled), or a tick of the ticker.  The shutdown arms carry
the outcome of their `killProcess`, the tick its outcome. -/
inductive LoopEvent where
  | signal (k : KillOutcome)
  | ctxDone (k : KillOutcome)
  | tick (o : TickOutcome)
deriving DecidableEq, Repr

/-- The `for { select { ... } }` of `Run` in v2.go, run on the events the
`select` receives, in order.  The value is true when the loop has returned
(lines 269 and 275) and false when the events are used up and the loop is
waiting in `select`. -/
def loop (m : Monitor) : List LoopEvent → Step Bool
  | [] => { val := false, state := m, trace := [] }
  | LoopEvent.signal k :: _ =>
    let killed := killProcess { m with cancelled := true } k
    { val := true, state := killed.state, trace := killed.trace }
  | LoopEvent.ctxDone k :: _ =>
    let killed := killProcess m k
    { val := true, state := killed.state, trace := killed.trace }
  | LoopEvent.tick o :: rest =>
    let ticked := tick m o
    let r := loop ticked.state rest
    { val := r.val, state := r.state, trace := ticked.trace ++ r.trace }

/-- How a call of `Run` stands after the events given: ended by `log.Fatalf`,
returned, or still in the loop. -/
inductive RunStatus where
  | fatal
  | returned
  | running
deriving DecidableEq, Repr

/-- `Run` of v2.go: `validate` (whose result is `validateOk`; it touches the
file system only), the first `startProcess`, then the loop. -/
def Run (m : Monitor) (validateOk : Bool) (first : StartOutcome) (events : List LoopEvent) :
    Step RunStatus :=
  if !validateOk then { val := RunStatus.fatal, state := m, trace := [] }
  else
    let started := startProcess m first
    match started.val with
    | .error _ => { val := RunStatus.fatal, state := started.state, trace := started.trace }
    | .ok _ =>
      let r := loop started.state events
      { val := if r.val then RunStatus.returned else RunStatus.running,
        state := r.state, trace := started.trace ++ r.trace }

/-- The monitor states in which the loop calls `checkLogs`, in order: on a tick
`checkLogs` is called, on the state `isProcessRunning` leaves, exactly when
`isProcessRunning` returned true (lines 283-290); no tick follows a shutdown
arm. -/
def checkCalls (m : Monitor) : List LoopEvent → List Monitor
  | [] => []
  | LoopEvent.signal _ :: _ => []
  | LoopEvent.ctxDone _ :: _ => []
  | LoopEvent.tick o :: rest =>
    (if (isProcessRunning m o.probeOk).val then [(isProcessRunning m o.probeOk).state] else [])
      ++ checkCalls (tick m o).state rest

/-- Longest time an operation of the trace can block: the `select`s of
`killProcessUnsafe` race `done` against `time.After(5 * time.Second)` and
`time.After(2 * time.Second)`; the `Wait` of procesy.go has no timer (`none`);
nothing else waits. -/
def blockLimit : Event → Option Int
  | Event.waitGrace => some (5 * Second)
  | Event.waitForced => some (2 * Second)
  | Event.wait => none
  | _ => some 0

/-! ## The loop of Run in procesy.go -/

/-- What the `select` of the loop of `Run` in procesy.go receives: a signal or
a tick (there is no context). -/
inductive Procesy.LoopEvent where
  | signal (k : KillOutcome)
  | tick (o : TickOutcome)
deriving DecidableEq, Repr

/-- The `for { select { ... } }` of `Run` in procesy.go (lines 194-242).  The
tick arm (lines 203-240) is the parameter `tickArm`; `none` stands for a run
that is stuck in the `Wait` of a `killProcess`. -/
def Procesy.loop (tickArm : Monitor → TickOutcome → Option (Step Unit)) (m : Monitor) :
    List Procesy.LoopEvent → Option (Step Bool)
  | [] => some { val := false, state := m, trace := [] }
  | Procesy.LoopEvent.signal k :: _ =>
    (Procesy.killProcess m k).map
      (fun killed => { val := true, state := killed.state, trace := killed.trace })
  | Procesy.LoopEvent.tick o :: rest =>
    match tickArm m o with
    | none => none
    | some ticked =>
      (Procesy.loop tickArm ticked.state rest).map
        (fun r => { val := r.val, state := r.state, trace := ticked.trace ++ r.trace })

/-- An outcome of a kill in which the child ignores SIGTERM and is not reaped
within 2 s of SIGKILL. -/
def stubbornKill : KillOutcome :=
  { sigtermOk := true, exitedInGrace := false, reapedAfterKill := false }

/-- Events of a run on a log that holds 500 bytes from before: at 102 s the
probe fails and the child is restarted, at 104 s and 106 s the child is alive
and the log unchanged, then a signal arrives. -/
def crashThenShutdown : List LoopEvent :=
  [ LoopEvent.tick { probeOk := false, stat := some (50 * Second, 500), now := 102 * Second,
                     start := startAt (102 * Second) 4243 },
    LoopEvent.tick (quietTick (50 * Second) 500 (104 * Second) gracefulKill 4244),
    LoopEvent.tick (quietTick (50 * Second) 500 (106 * Second) gracefulKill 4245),
    LoopEvent.signal gracefulKill ]

/-- Restart pattern of a sequence of ticks in the words of the specification:
a tick restarts exactly when its clock reading is more than `timeout` after
`lastStart`, the clock reading of the latest successful start; after a restart
that reading is the one taken by the restart. -/
def staleSchedule (timeout lastStart : Int) : List TickOutcome → List Bool
  | [] => []
  | o :: os =>
    if timeout < o.now - lastStart then true :: staleSchedule timeout o.start.now os
    else false :: staleSchedule timeout lastStart os

/-- Ticks on which the child is alive and the log file never changes: the
probe succeeds, `os.Stat` returns the same `(modTime, size)`, a restart would
succeed, and the clock a restart would read is after the zero instant and not
before the file's modification time. -/
def unchangedLog (modTime size : Int) : List TickOutcome → Bool
  | [] => true
  | o :: os =>
    o.probeOk && decide (o.stat = some (modTime, size)) && o.start.spawn.isSome
      && decide (modTime ≤ o.start.now) && decide (0 < o.start.now)
      && unchangedLog modTime size os

/-- Clock readings of ticks number `k`, `k+1`, ... of a ticker of period
`interval` created after the start read the clock at `t0`: the check of tick
`j` reads the clock later than `t0 + j * interval` and before
`t0 + (j + 1) * interval`, and a restart reads it no earlier than the check of
its tick. -/
def punctual (t0 interval : Int) : Nat → List TickOutcome → Bool
  | _, [] => true
  | k, o :: os =>
    decide (t0 + (k : Int) * interval < o.now) && decide (o.now < t0 + ((k : Int) + 1) * interval)
      && decide (o.now ≤ o.start.now) && punctual t0 interval (k + 1) os

/-- One millisecond as a `time.Duration`. -/
def Millisecond : Int := 1000000

/-- Tick number `k` of a run started at `t0` whose ticker has period `interval`:
the check reads the clock 1 ms after `t0 + k * interval`, the child is alive,
the log file is `(modTime, size)`, and a restart starts child `5000 + k` and
reads the clock 3 ms after the check. -/
def lateTick (modTime size t0 interval : Int) (k : Nat) : TickOutcome :=
  { probeOk := true, stat := some (modTime, size),
    now := t0 + (k : Int) * interval + Millisecond,
    start := { kill := gracefulKill, spawn := some (5000 + k),
               now := t0 + (k : Int) * interval + 4 * Millisecond } }

/-- Ticks number 1 to `n` of such a run. -/
def lateTicks (modTime size t0 interval : Int) (n : Nat) : List TickOutcome :=
  (List.range n).map (fun i => lateTick modTime size t0 interval (i + 1))

/-- A tick arm for the loop of procesy.go that finds nothing to do; it stands
for any tick arm on events that contain no tick. -/
def Procesy.idleTick (m : Monitor) (_o : TickOutcome) : Option (Step Unit) :=
  some { val := (), state := m, trace := [] }

/-! ## Lemmas on time -/

theorem Since_self (t : Int) : Since t t = 0 := by
  simp [Since, Sub, maxDuration, minDuration]

theorem Since_gt_iff (now t T : Int) (h1 : minDuration ≤ T) (h2 : T < maxDuration) :
    Since now t > T ↔ now - t > T := by
  unfold Since Sub
  simp only [maxDuration, minDuration] at *
  split_ifs <;> omega

theorem Since_le_of_le (now t T : Int) (h0 : 0 ≤ T) (h : now - t ≤ T) :
    Since now t ≤ T := by
  unfold Since Sub
  simp only [maxDuration, minDuration] at *
  split_ifs <;> omega

theorem wrap64_range (x : Int) : minDuration ≤ wrap64 x ∧ wrap64 x ≤ maxDuration := by
  unfold wrap64 minDuration maxDuration
  omega

theorem NewMonitor_timeout_range (command logFile : String) (timeout interval : Int) :
    minDuration ≤ (NewMonitor command logFile timeout interval).timeout ∧
      (NewMonitor command logFile timeout interval).timeout < maxDuration := by
  simp only [NewMonitor, wrap64, Second, minDuration, maxDuration]
  omega

/-! ## Frame lemmas -/

theorem killProcessUnsafe_frame (m : Monitor) (k : KillOutcome) :
    (killProcessUnsafe m k).state = { m with process := (killProcessUnsafe m k).state.process } := by
  unfold killProcessUnsafe
  split
  · rfl
  · split
    · rfl
    · split_ifs <;> rfl

theorem startProcess_ok_state (m : Monitor) (o : StartOutcome) (pid : Nat)
    (h : o.spawn = some pid) :
    (startProcess m o).state =
      { m with process := some { Process := some pid }, lastModTime := o.now } := by
  unfold startProcess
  simp only [h]
  split_ifs
  · rw [killProcessUnsafe_frame]
  · rfl

theorem startProcess_fail_state (m : Monitor) (o : StartOutcome) (h : o.spawn = none) :
    (startProcess m o).state = { m with process := some { Process := none } } := by
  unfold startProcess
  simp only [h]
  split_ifs
  · rw [killProcessUnsafe_frame]
  · rfl

theorem killProcessUnsafe_no_start (m : Monitor) (k : KillOutcome) :
    Event.startProcess ∉ (killProcessUnsafe m k).trace := by
  unfold killProcessUnsafe
  split
  · simp
  · split
    · simp
    · split_ifs <;> simp

theorem startProcess_trace (m : Monitor) (o : StartOutcome) :
    (startProcess m o).trace =
      Event.startProcess ::
        ((if m.process ≠ none then (killProcessUnsafe m o.kill).trace else []) ++ [Event.spawn]) := by
  unfold startProcess
  cases o.spawn <;> by_cases hp : m.process = none <;> simp [hp]

theorem startProcess_count (m : Monitor) (o : StartOutcome) :
    (startProcess m o).trace.count Event.startProcess = 1 := by
  rw [startProcess_trace]
  have hk := killProcessUnsafe_no_start m o.kill
  split_ifs <;> simp [List.count_cons, List.count_eq_zero_of_not_mem, hk]

/-! ## C1 -/

/-- C1, evaluated on the code: when the monitor holds a process and SIGTERM
cannot be delivered, `killProcessUnsafe` and `killProcess` of v2.go and
`killProcess` of procesy.go return with the state untouched, so the stored
process is still there, whatever the other outcomes are. -/
theorem C1_handle_kept_when_sigterm_fails (m : Monitor) (pid : Nat) (exited reaped : Bool) :
    (killProcessUnsafe { m with process := some { Process := some pid } }
        { sigtermOk := false, exitedInGrace := exited, reapedAfterKill := reaped }).state.process
      = some { Process := some pid } ∧
    holdsProcess (killProcess { m with process := some { Process := some pid } }
        { sigtermOk := false, exitedInGrace := exited, reapedAfterKill := reaped }).state = true ∧
    (Procesy.killProcess { m with process := some { Process := some pid } }
        { sigtermOk := false, exitedInGrace := exited, reapedAfterKill := reaped }).map
          (fun s => s.state.process) = some (some { Process := some pid }) := by
  refine ⟨rfl, rfl, rfl⟩

/-! ## C2 -/

/-- C2, as stated, fails: the monitor built by `NewMonitor` with timeout 1 s and
interval 5 s starts its child successfully at instant 100 s; the log file is
empty and was last modified at 50 s; the first `checkLogs`, one interval later
at 105 s, reports stale. -/
theorem C2_first_check_can_be_stale :
    (checkLogs
      (startProcess (NewMonitor "cmd" "app.log" 1 5)
        { kill := { sigtermOk := true, exitedInGrace := true, reapedAfterKill := true },
          spawn := some 4242, now := 100 * Second }).state
      (some (50 * Second, 0)) (105 * Second)).val = .ok false := by
  decide

/-- C2, amended: after a successful start at a non-zero instant the first
`checkLogs` reports active exactly when the file is larger than the stored
baseline size, or its modification time is after the start, or the time since
the start does not exceed the timeout; otherwise it reports stale. -/
theorem C2_first_check_after_start (m : Monitor) (o : StartOutcome) (pid : Nat)
    (modTime size now : Int) (hs : o.spawn = some pid) (hz : o.now ≠ 0) :
    (checkLogs (startProcess m o).state (some (modTime, size)) now).val =
      .ok (decide (m.lastLogSize < size ∨ o.now < modTime ∨ Since now o.now ≤ m.timeout)) := by
  rw [startProcess_ok_state m o pid hs]
  simp only [checkLogs, getLogInfo, IsZero, After]
  have hz2 : (o.now == 0) = false := by simpa using hz
  simp only [hz2]
  by_cases h1 : m.lastLogSize < size
  · simp [h1]
  · by_cases h2 : o.now < modTime
    · simp [h1, h2]
    · by_cases h3 : Since now o.now ≤ m.timeout
      · have h3n : ¬ (m.timeout < Since now o.now) := by omega
        simp [h1, h2, h3, h3n]
      · have h3n : m.timeout < Since now o.now := by omega
        simp [h1, h2, h3, h3n]

/-- Witness of C2 amended: a first check 2 s after a start with timeout 10 s is
active although the file is empty and old. -/
theorem C2_first_check_after_start_witness :
    (checkLogs
      (startProcess (NewMonitor "cmd" "app.log" 10 2)
        { kill := { sigtermOk := true, exitedInGrace := true, reapedAfterKill := true },
          spawn := some 4242, now := 100 * Second }).state
      (some (50 * Second, 0)) (102 * Second)).val =
      .ok (decide ((NewMonitor "cmd" "app.log" 10 2).lastLogSize < 0 ∨ 100 * Second < 50 * Second ∨
        Since (102 * Second) (100 * Second) ≤ (NewMonitor "cmd" "app.log" 10 2).timeout)) :=
  C2_first_check_after_start (NewMonitor "cmd" "app.log" 10 2)
    { kill := { sigtermOk := true, exitedInGrace := true, reapedAfterKill := true },
      spawn := some 4242, now := 100 * Second } 4242 (50 * Second) 0 (102 * Second) rfl (by decide)

/-! ## C3 -/

/-- C3: with a baseline present (`lastModTime` is not the zero instant) and a
file larger than the baseline size, `checkLogs` reports active, stores the new
size, sets `lastModTime` to the instant of the call and changes nothing else;
the time since the last change, computed at that instant, is zero. -/
theorem C3_growth_resets_clock (m : Monitor) (modTime size now : Int)
    (hb : m.lastModTime ≠ 0) (hg : m.lastLogSize < size) :
    (checkLogs m (some (modTime, size)) now).val = .ok true ∧
    (checkLogs m (some (modTime, size)) now).state =
      { m with lastModTime := now, lastLogSize := size } ∧
    (checkLogs m (some (modTime, size)) now).state.lastLogSize = size ∧
    (checkLogs m (some (modTime, size)) now).state.lastModTime = now ∧
    Since now (checkLogs m (some (modTime, size)) now).state.lastModTime = 0 := by
  have hz : (m.lastModTime == 0) = false := by simpa using hb
  have hst : checkLogs m (some (modTime, size)) now =
      { val := .ok true, state := { m with lastModTime := now, lastLogSize := size },
        trace := [Event.checkLogs, Event.stat] } := by
    simp [checkLogs, getLogInfo, IsZero, hz, hg]
  rw [hst]
  exact ⟨rfl, rfl, rfl, rfl, Since_self now⟩

/-- Witness of C3: baseline of 50 bytes last changed at 100 s, file of 60 bytes
with an old modification time, check at 500 s. -/
theorem C3_growth_resets_clock_witness :
    (checkLogs { NewMonitor "cmd" "app.log" 10 2 with lastModTime := 100 * Second, lastLogSize := 50 }
        (some (7 * Second, 60)) (500 * Second)).val = .ok true ∧
    (checkLogs { NewMonitor "cmd" "app.log" 10 2 with lastModTime := 100 * Second, lastLogSize := 50 }
        (some (7 * Second, 60)) (500 * Second)).state =
      { ({ NewMonitor "cmd" "app.log" 10 2 with lastModTime := 100 * Second, lastLogSize := 50 } : Monitor)
        with lastModTime := 500 * Second, lastLogSize := 60 } ∧
    (checkLogs { NewMonitor "cmd" "app.log" 10 2 with lastModTime := 100 * Second, lastLogSize := 50 }
        (some (7 * Second, 60)) (500 * Second)).state.lastLogSize = 60 ∧
    (checkLogs { NewMonitor "cmd" "app.log" 10 2 with lastModTime := 100 * Second, lastLogSize := 50 }
        (some (7 * Second, 60)) (500 * Second)).state.lastModTime = 500 * Second ∧
    Since (500 * Second) (checkLogs { NewMonitor "cmd" "app.log" 10 2 with lastModTime := 100 * Second, lastLogSize := 50 }
        (some (7 * Second, 60)) (500 * Second)).state.lastModTime = 0 :=
  C3_growth_resets_clock
    { NewMonitor "cmd" "app.log" 10 2 with lastModTime := 100 * Second, lastLogSize := 50 }
    (7 * Second) 60 (500 * Second) (by decide) (by decide)

/-! ## C4 -/

/-- C4, as stated, fails: timeout 90 s, interval 60 s, baseline of 50 bytes
with `lastModTime` 100 s; the log is rewritten at 101 s (20 bytes).  The check
at 160 s reports active and stores size 20, but `lastModTime` becomes the
file's modification time 101 s, not the instant 160 s of the call: at the next
check, at 220 s, only 60 s have passed since the call of 160 s, which is within
the timeout, and the check reports stale. -/
theorem C4_last_change_is_mtime_not_now :
    (checkLogs { NewMonitor "cmd" "app.log" 90 60 with lastModTime := 100 * Second, lastLogSize := 50 }
        (some (101 * Second, 20)) (160 * Second)).val = .ok true ∧
    (checkLogs { NewMonitor "cmd" "app.log" 90 60 with lastModTime := 100 * Second, lastLogSize := 50 }
        (some (101 * Second, 20)) (160 * Second)).state.lastModTime = 101 * Second ∧
    (checkLogs { NewMonitor "cmd" "app.log" 90 60 with lastModTime := 100 * Second, lastLogSize := 50 }
        (some (101 * Second, 20)) (160 * Second)).state.lastModTime ≠ 160 * Second ∧
    Since (220 * Second) (160 * Second) ≤ (NewMonitor "cmd" "app.log" 90 60).timeout ∧
    (checkLogs
        (checkLogs { NewMonitor "cmd" "app.log" 90 60 with lastModTime := 100 * Second, lastLogSize := 50 }
          (some (101 * Second, 20)) (160 * Second)).state
        (some (101 * Second, 20)) (220 * Second)).val = .ok false := by
  decide

/-- C4, amended: with a baseline present, a file not larger than the baseline
size and a modification time after `lastModTime`, `checkLogs` reports active,
stores the file's size, sets `lastModTime` (the instant from which the timeout
is counted) to the file's modification time, and changes nothing else. -/
theorem C4_newer_mtime_is_activity (m : Monitor) (modTime size now : Int)
    (hb : m.lastModTime ≠ 0) (hs : size ≤ m.lastLogSize) (ht : m.lastModTime < modTime) :
    (checkLogs m (some (modTime, size)) now).val = .ok true ∧
    (checkLogs m (some (modTime, size)) now).state =
      { m with lastModTime := modTime, lastLogSize := size } := by
  have hz : (m.lastModTime == 0) = false := by simpa using hb
  have hs2 : ¬ (m.lastLogSize < size) := by omega
  have hst : checkLogs m (some (modTime, size)) now =
      { val := .ok true, state := { m with lastModTime := modTime, lastLogSize := size },
        trace := [Event.checkLogs, Event.stat] } := by
    simp [checkLogs, getLogInfo, IsZero, After, hz, hs2, ht]
  rw [hst]
  exact ⟨rfl, rfl⟩

/-- Witness of C4 amended: the rewritten file of the counterexample. -/
theorem C4_newer_mtime_is_activity_witness :
    (checkLogs { NewMonitor "cmd" "app.log" 90 60 with lastModTime := 100 * Second, lastLogSize := 50 }
        (some (101 * Second, 20)) (160 * Second)).val = .ok true ∧
    (checkLogs { NewMonitor "cmd" "app.log" 90 60 with lastModTime := 100 * Second, lastLogSize := 50 }
        (some (101 * Second, 20)) (160 * Second)).state =
      { ({ NewMonitor "cmd" "app.log" 90 60 with lastModTime := 100 * Second, lastLogSize := 50 } : Monitor)
        with lastModTime := 101 * Second, lastLogSize := 20 } :=
  C4_newer_mtime_is_activity
    { NewMonitor "cmd" "app.log" 90 60 with lastModTime := 100 * Second, lastLogSize := 50 }
    (101 * Second) 20 (160 * Second) (by decide) (by decide) (by decide)

/-! ## C5 -/

/-- C5: with a baseline present, a file not larger than the baseline size and
not modified after `lastModTime`, `checkLogs` reports stale exactly when
`time.Since(lastModTime)` is greater than the timeout and active exactly when
it is at most the timeout (equality included); the state is unchanged in both
cases.  For a timeout in the range every `NewMonitor` produces,
`time.Since(lastModTime)` exceeds it exactly when the exact difference
`now - lastModTime` does. -/
theorem C5_quiet_check (m : Monitor) (modTime size now : Int)
    (hb : m.lastModTime ≠ 0) (hs : size ≤ m.lastLogSize) (ht : modTime ≤ m.lastModTime) :
    ((checkLogs m (some (modTime, size)) now).val = .ok false ↔
        m.timeout < Since now m.lastModTime) ∧
    ((checkLogs m (some (modTime, size)) now).val = .ok true ↔
        Since now m.lastModTime ≤ m.timeout) ∧
    (checkLogs m (some (modTime, size)) now).state = m ∧
    (minDuration ≤ m.timeout → m.timeout < maxDuration →
      ((checkLogs m (some (modTime, size)) now).val = .ok false ↔
        m.timeout < now - m.lastModTime)) := by
  have hz : (m.lastModTime == 0) = false := by simpa using hb
  have hs2 : ¬ (m.lastLogSize < size) := by omega
  have ht2 : ¬ (m.lastModTime < modTime) := by omega
  by_cases h : m.timeout < Since now m.lastModTime
  · have hst : checkLogs m (some (modTime, size)) now =
        { val := .ok false, state := m, trace := [Event.checkLogs, Event.stat] } := by
      simp [checkLogs, getLogInfo, IsZero, After, hz, hs2, ht2, h]
    rw [hst]
    refine ⟨by simp [h], ?_, rfl, ?_⟩
    · constructor
      · intro hc; cases hc
      · intro hc; omega
    · intro h1 h2
      have := (Since_gt_iff now m.lastModTime m.timeout h1 h2).mp h
      simp only [true_iff]
      omega
  · have hst : checkLogs m (some (modTime, size)) now =
        { val := .ok true, state := m, trace := [Event.checkLogs, Event.stat] } := by
      simp [checkLogs, getLogInfo, IsZero, After, hz, hs2, ht2, h]
    rw [hst]
    refine ⟨?_, ?_, rfl, ?_⟩
    · constructor
      · intro hc; cases hc
      · intro hc; exact absurd hc h
    · constructor
      · intro _; omega
      · intro _; rfl
    · intro h1 h2
      constructor
      · intro hc; cases hc
      · intro hc
        exact absurd ((Since_gt_iff now m.lastModTime m.timeout h1 h2).mpr hc) h

/-- Witness of C5: timeout 10 s, last change at 100 s, unchanged file, check at
110 s (elapsed equal to the timeout). -/
theorem C5_quiet_check_witness :
    ((checkLogs { NewMonitor "cmd" "app.log" 10 2 with lastModTime := 100 * Second, lastLogSize := 50 }
        (some (90 * Second, 50)) (110 * Second)).val = .ok true ↔
      Since (110 * Second) (100 * Second) ≤ 10 * Second) ∧
    (checkLogs { NewMonitor "cmd" "app.log" 10 2 with lastModTime := 100 * Second, lastLogSize := 50 }
        (some (90 * Second, 50)) (110 * Second)).val = .ok true :=
  ⟨(C5_quiet_check
      { NewMonitor "cmd" "app.log" 10 2 with lastModTime := 100 * Second, lastLogSize := 50 }
      (90 * Second) 50 (110 * Second) (by decide) (by decide) (by decide)).2.1, by decide⟩

/-! ## C6 -/

theorem isProcessRunning_true (m : Monitor) (probeOk : Bool)
    (h : (isProcessRunning m probeOk).val = true) :
    ∃ pid, m.process = some { Process := some pid } ∧ m.cancelled = false ∧ probeOk = true ∧
      isProcessRunning m probeOk =
        { val := true, state := m, trace := [Event.isProcessRunning, Event.signal0 pid] } := by
  unfold isProcessRunning at h ⊢
  cases hp : m.process with
  | none => simp [hp] at h
  | some c =>
    obtain ⟨p⟩ := c
    cases p with
    | none => simp [hp] at h
    | some pid =>
      simp only [hp] at h ⊢
      refine ⟨pid, rfl, ?_⟩
      cases hc : m.cancelled <;> cases probeOk <;> simp [hc] at h ⊢

/-- C6: when the liveness check succeeds and `os.Stat` fails, the tick leaves
the monitor state as it was, performs exactly the probe and the failed
`checkLogs` (no `killProcessUnsafe`, no `startProcess`), and `checkLogs`
returns an error, not a stale verdict. -/
theorem C6_stat_failure_skips_tick (m : Monitor) (o : TickOutcome)
    (ha : (isProcessRunning m o.probeOk).val = true) (hs : o.stat = none) :
    (tick m o).state = m ∧
    (∃ pid, (tick m o).trace =
      [Event.isProcessRunning, Event.signal0 pid, Event.checkLogs, Event.stat]) ∧
    Event.killProcessUnsafe ∉ (tick m o).trace ∧
    Event.startProcess ∉ (tick m o).trace ∧
    (∃ e, (checkLogs m o.stat o.now).val = .error e) ∧
    (checkLogs m o.stat o.now).val ≠ .ok false ∧
    (checkLogs m o.stat o.now).state = m := by
  obtain ⟨pid, _, _, _, hrun⟩ := isProcessRunning_true m o.probeOk ha
  have hck : checkLogs m none o.now =
      { val := .error ("nie można odczytać pliku logów: " ++ "stat"), state := m,
        trace := [Event.checkLogs, Event.stat] } := rfl
  have htick : tick m o =
      { val := (), state := m,
        trace := [Event.isProcessRunning, Event.signal0 pid, Event.checkLogs, Event.stat] } := by
    unfold tick
    simp only [hrun, hs, hck]
    rfl
  rw [htick, hs, hck]
  refine ⟨rfl, ⟨pid, rfl⟩, by simp, by simp, ⟨_, rfl⟩, by simp, rfl⟩

/-- Witness of C6: a running child (pid 4242) and a log file that cannot be
read. -/
theorem C6_stat_failure_skips_tick_witness :
    (tick { NewMonitor "cmd" "app.log" 10 2 with
              process := some { Process := some 4242 }, lastModTime := 100 * Second }
        { probeOk := true, stat := none, now := 102 * Second,
          start := { kill := { sigtermOk := true, exitedInGrace := true, reapedAfterKill := true },
                     spawn := some 4243, now := 102 * Second } }).state =
      { NewMonitor "cmd" "app.log" 10 2 with
          process := some { Process := some 4242 }, lastModTime := 100 * Second } :=
  (C6_stat_failure_skips_tick
    { NewMonitor "cmd" "app.log" 10 2 with
        process := some { Process := some 4242 }, lastModTime := 100 * Second }
    { probeOk := true, stat := none, now := 102 * Second,
      start := { kill := { sigtermOk := true, exitedInGrace := true, reapedAfterKill := true },
                 spawn := some 4243, now := 102 * Second } }
    (by decide) rfl).1

/-! ## Ticks with a living child -/

theorem isProcessRunning_alive (m : Monitor) (pid : Nat)
    (hp : m.process = some { Process := some pid }) (hc : m.cancelled = false) :
    isProcessRunning m true =
      { val := true, state := m, trace := [Event.isProcessRunning, Event.signal0 pid] } := by
  unfold isProcessRunning
  simp [hp, hc]

theorem checkLogs_trace (m : Monitor) (st : Option (Int × Int)) (now : Int) :
    (checkLogs m st now).trace = [Event.checkLogs, Event.stat] := by
  unfold checkLogs getLogInfo
  cases st with
  | none => rfl
  | some info =>
    obtain ⟨modTime, size⟩ := info
    simp only
    split_ifs <;> rfl

theorem checkLogs_stale_state (m : Monitor) (st : Option (Int × Int)) (now : Int)
    (h : (checkLogs m st now).val = .ok false) : (checkLogs m st now).state = m := by
  unfold checkLogs getLogInfo at h ⊢
  cases st with
  | none => rfl
  | some info =>
    obtain ⟨modTime, size⟩ := info
    simp only at h ⊢
    split_ifs at h ⊢ <;> first | rfl | (simp at h)

theorem tick_alive_active (m : Monitor) (pid : Nat) (o : TickOutcome)
    (hp : m.process = some { Process := some pid }) (hc : m.cancelled = false)
    (hprobe : o.probeOk = true) (hv : (checkLogs m o.stat o.now).val = .ok true) :
    (tick m o).state = (checkLogs m o.stat o.now).state ∧
    (tick m o).trace =
      [Event.isProcessRunning, Event.signal0 pid, Event.checkLogs, Event.stat] := by
  unfold tick
  rw [hprobe, isProcessRunning_alive m pid hp hc]
  simp only [hv, checkLogs_trace]
  exact ⟨rfl, rfl⟩

theorem tick_alive_stale (m : Monitor) (pid : Nat) (o : TickOutcome)
    (hp : m.process = some { Process := some pid }) (hc : m.cancelled = false)
    (hprobe : o.probeOk = true) (hv : (checkLogs m o.stat o.now).val = .ok false) :
    (tick m o).state = (startProcess m o.start).state ∧
    (tick m o).trace =
      [Event.isProcessRunning, Event.signal0 pid, Event.checkLogs, Event.stat] ++
        (startProcess m o.start).trace := by
  unfold tick
  rw [hprobe, isProcessRunning_alive m pid hp hc]
  simp only [hv, checkLogs_trace, checkLogs_stale_state m o.stat o.now hv]
  exact ⟨rfl, rfl⟩

theorem checkLogs_baseline (m : Monitor) (modTime size now : Int) (hb : m.lastModTime ≠ 0) :
    checkLogs m (some (modTime, size)) now =
      if m.lastLogSize < size then
        { val := .ok true, state := { m with lastModTime := now, lastLogSize := size },
          trace := [Event.checkLogs, Event.stat] }
      else if m.lastModTime < modTime then
        { val := .ok true, state := { m with lastModTime := modTime, lastLogSize := size },
          trace := [Event.checkLogs, Event.stat] }
      else if m.timeout < Since now m.lastModTime then
        { val := .ok false, state := m, trace := [Event.checkLogs, Event.stat] }
      else
        { val := .ok true, state := m, trace := [Event.checkLogs, Event.stat] } := by
  have hz : (m.lastModTime == 0) = false := by simpa using hb
  simp [checkLogs, getLogInfo, IsZero, After, hz]

/-! ## C7 -/

theorem steadyLog_cons (timeout lastGrow prevTime : Int) (prevSize : Option Int)
    (o : TickOutcome) (os : List TickOutcome)
    (h : steadyLog timeout lastGrow prevTime prevSize (o :: os) = true) :
    ∃ modTime size lg, o.stat = some (modTime, size) ∧ o.probeOk = true ∧ prevTime < o.now ∧
      (∀ p, prevSize = some p → p ≤ size) ∧ o.now - lg ≤ timeout ∧
      ((lg = o.now ∧ ∃ p, prevSize = some p ∧ p < size) ∨ lg = lastGrow) ∧
      steadyLog timeout lg o.now (some size) os = true := by
  cases hstat : o.stat with
  | none => simp [steadyLog, hstat] at h
  | some info =>
    obtain ⟨modTime, size⟩ := info
    cases prevSize with
    | none =>
      simp only [steadyLog, hstat, Bool.and_eq_true, decide_eq_true_eq] at h
      obtain ⟨⟨⟨⟨hprobe, htime⟩, _⟩, hgap⟩, hrest⟩ := h
      refine ⟨modTime, size, lastGrow, rfl, hprobe, htime, by simp, ?_, Or.inr rfl, ?_⟩
      · simpa using hgap
      · simpa using hrest
    | some p =>
      simp only [steadyLog, hstat, Bool.and_eq_true, decide_eq_true_eq] at h
      obtain ⟨⟨⟨⟨hprobe, htime⟩, hns⟩, hgap⟩, hrest⟩ := h
      by_cases hg : p < size
      · refine ⟨modTime, size, o.now, rfl, hprobe, htime, ?_, ?_, Or.inl ⟨rfl, p, rfl, hg⟩, ?_⟩
        · intro q hq; cases hq; exact hns
        · simpa [hg] using hgap
        · simpa [hg] using hrest
      · refine ⟨modTime, size, lastGrow, rfl, hprobe, htime, ?_, ?_, Or.inr rfl, ?_⟩
        · intro q hq; cases hq; exact hns
        · simpa [hg] using hgap
        · simpa [hg] using hrest

theorem steady_ticks_no_restart (os : List TickOutcome) :
    ∀ (m : Monitor) (pid : Nat) (lastGrow prevTime : Int) (prevSize : Option Int),
      m.process = some { Process := some pid } → m.cancelled = false →
      0 < lastGrow → lastGrow ≤ m.lastModTime → lastGrow ≤ prevTime →
      (∀ p, prevSize = some p → m.lastLogSize = p) →
      (prevSize = none → ∀ o modTime size, os.head? = some o →
        o.stat = some (modTime, size) → m.lastLogSize ≤ size) →
      steadyLog m.timeout lastGrow prevTime prevSize os = true →
      ∀ tr ∈ (ticks m os).2, restarted tr = false := by
  induction os with
  | nil =>
    intro m pid lastGrow prevTime prevSize _ _ _ _ _ _ _ _ tr htr
    simp [ticks] at htr
  | cons o os ih =>
    intro m pid lastGrow prevTime prevSize hp hc hlg hle hpt hprev hbase hst
    obtain ⟨modTime, size, lg, hstat, hprobe, htime, hns, hgap, hlgc, hrest⟩ :=
      steadyLog_cons _ _ _ _ _ _ hst
    have hsz : m.lastLogSize ≤ size := by
      cases prevSize with
      | none => exact hbase rfl o modTime size rfl hstat
      | some p =>
        have h1 := hprev p rfl
        have h2 := hns p rfl
        omega
    have hb : m.lastModTime ≠ 0 := by omega
    have hck := checkLogs_baseline m modTime size o.now hb
    have hlgpos : 0 < lg := by rcases hlgc with ⟨h, _⟩ | h <;> omega
    have hlgnow : lg ≤ o.now := by rcases hlgc with ⟨h, _⟩ | h <;> omega
    by_cases h1 : m.lastLogSize < size
    · have hv : (checkLogs m o.stat o.now).val = .ok true := by
        rw [hstat, hck]; simp [h1]
      have hs : (checkLogs m o.stat o.now).state =
          { m with lastModTime := o.now, lastLogSize := size } := by
        rw [hstat, hck]; simp [h1]
      obtain ⟨hts, htt⟩ := tick_alive_active m pid o hp hc hprobe hv
      intro tr htr
      simp only [ticks, List.mem_cons] at htr
      rcases htr with rfl | htr
      · rw [htt]; simp [restarted]
      · rw [hts, hs] at htr
        exact ih { m with lastModTime := o.now, lastLogSize := size } pid lg o.now (some size)
          hp hc hlgpos hlgnow hlgnow (by intro p hp2; cases hp2; rfl)
          (by intro h; cases h) hrest tr htr
    · have hlg2 : lg = lastGrow := by
        rcases hlgc with ⟨_, p, hpe, hlt⟩ | h
        · have := hprev p hpe
          omega
        · exact h
      have hsize : m.lastLogSize = size := by omega
      by_cases h2 : m.lastModTime < modTime
      · have hv : (checkLogs m o.stat o.now).val = .ok true := by
          rw [hstat, hck]; simp [h1, h2]
        have hs : (checkLogs m o.stat o.now).state =
            { m with lastModTime := modTime, lastLogSize := size } := by
          rw [hstat, hck]; simp [h1, h2]
        obtain ⟨hts, htt⟩ := tick_alive_active m pid o hp hc hprobe hv
        intro tr htr
        simp only [ticks, List.mem_cons] at htr
        rcases htr with rfl | htr
        · rw [htt]; simp [restarted]
        · rw [hts, hs] at htr
          exact ih { m with lastModTime := modTime, lastLogSize := size } pid lg o.now (some size)
            hp hc hlgpos (by show lg ≤ modTime; omega) hlgnow (by intro p hp2; cases hp2; rfl)
            (by intro h; cases h) hrest tr htr
      · have hfresh : ¬ (m.timeout < Since o.now m.lastModTime) := by
          have := Since_le_of_le o.now m.lastModTime m.timeout (by omega) (by omega)
          omega
        have hv : (checkLogs m o.stat o.now).val = .ok true := by
          rw [hstat, hck]; simp [h1, h2, hfresh]
        have hs : (checkLogs m o.stat o.now).state = m := by
          rw [hstat, hck]; simp [h1, h2, hfresh]
        obtain ⟨hts, htt⟩ := tick_alive_active m pid o hp hc hprobe hv
        intro tr htr
        simp only [ticks, List.mem_cons] at htr
        rcases htr with rfl | htr
        · rw [htt]; simp [restarted]
        · rw [hts, hs] at htr
          exact ih m pid lg o.now (some size) hp hc hlgpos (by omega) hlgnow
            (by intro p hp2; cases hp2; exact hsize) (by intro h; cases h) hrest tr htr

/-- C7, as stated, fails: the monitor restarts a crashed child at 104 s while
its baseline size is still the 1000 bytes of the previous child's log.  On the
six following ticks the child is alive, `os.Stat` succeeds, the observed size
grows at every tick (10, 20, ..., 60 bytes), so every tick is at most 2 s after
the most recent growth and the timeout is 10 s; the sizes stay below the
baseline and the modification times before the start, and the tick at 116 s
restarts the child. -/
theorem C7_growing_log_restarted :
    (startProcess crashedAfterGrowth (startAt (104 * Second) 4244)).val = .ok () ∧
    steadyLog crashedAfterGrowth.timeout (104 * Second) (104 * Second) none growingBelowBaseline = true ∧
    ((ticks (startProcess crashedAfterGrowth (startAt (104 * Second) 4244)).state
        growingBelowBaseline).2.map restarted) = [false, false, false, false, false, true] := by
  decide

/-- C7, amended: after a successful start at a positive instant, let the ticks
come at increasing times, with the child alive and `os.Stat` succeeding at
every tick, the observed size never decreasing, every tick at most `timeout`
after the most recent tick at which the observed size grew (after the start, if
there is none), and let the first observed size be no smaller than the
baseline size the monitor holds at the start.  Then no tick calls
`startProcess`. -/
theorem C7_steady_log_no_restart (pre : Monitor) (so : StartOutcome) (pid : Nat)
    (os : List TickOutcome)
    (hs : so.spawn = some pid) (hnow : 0 < so.now) (hc : pre.cancelled = false)
    (hsteady : steadyLog pre.timeout so.now so.now none os = true)
    (hbase : ∀ o modTime size, os.head? = some o → o.stat = some (modTime, size) →
      pre.lastLogSize ≤ size) :
    ∀ tr ∈ (ticks (startProcess pre so).state os).2, restarted tr = false := by
  rw [startProcess_ok_state pre so pid hs]
  exact steady_ticks_no_restart os
    { pre with process := some { Process := some pid }, lastModTime := so.now } pid so.now so.now none
    rfl hc hnow (le_refl _) (le_refl _) (by intro p hp; cases hp) (fun _ => hbase) hsteady

/-- Witness of C7 amended: first start at 100 s (baseline size 0), five ticks
on a log that grows once. -/
theorem C7_steady_log_no_restart_witness :
    steadyLog (NewMonitor "cmd" "app.log" 10 2).timeout (100 * Second) (100 * Second) none
        slowlyGrowing = true ∧
    ((ticks (startProcess (NewMonitor "cmd" "app.log" 10 2) (startAt (100 * Second) 4242)).state
        slowlyGrowing).2.all (fun tr => !restarted tr)) = true :=
  ⟨by decide, List.all_eq_true.mpr (fun tr htr => by
    simp [C7_steady_log_no_restart (NewMonitor "cmd" "app.log" 10 2) (startAt (100 * Second) 4242)
      4242 slowlyGrowing rfl (by decide) rfl (by decide)
      (by intro o modTime size ho hst; cases ho; cases hst; decide) tr htr])⟩

/-! ## C8 -/

theorem unchanged_ticks_pattern (modTime size : Int) (os : List TickOutcome) :
    ∀ (m : Monitor) (pid : Nat),
      m.process = some { Process := some pid } → m.cancelled = false →
      0 < m.lastModTime → minDuration ≤ m.timeout → m.timeout < maxDuration →
      modTime ≤ m.lastModTime → size ≤ m.lastLogSize →
      unchangedLog modTime size os = true →
      (ticks m os).2.map restarted = staleSchedule m.timeout m.lastModTime os := by
  induction os with
  | nil => intro m pid _ _ _ _ _ _ _ _; rfl
  | cons o os ih =>
    intro m pid hp hc h0 hT1 hT2 hmt hsz hq
    simp only [unchangedLog, Bool.and_eq_true, decide_eq_true_eq] at hq
    obtain ⟨⟨⟨⟨⟨hprobe, hstat⟩, hspawn⟩, hmtr⟩, hr0⟩, hrest⟩ := hq
    have hb : m.lastModTime ≠ 0 := by omega
    have hs2 : ¬ (m.lastLogSize < size) := by omega
    have ht2 : ¬ (m.lastModTime < modTime) := by omega
    have hck := checkLogs_baseline m modTime size o.now hb
    simp only [hs2, ht2, if_false] at hck
    have hiff := Since_gt_iff o.now m.lastModTime m.timeout hT1 hT2
    simp only [ticks, List.map_cons, staleSchedule]
    by_cases hst : m.timeout < Since o.now m.lastModTime
    · have hex : m.timeout < o.now - m.lastModTime := hiff.mp hst
      have hv : (checkLogs m o.stat o.now).val = .ok false := by
        rw [hstat, hck]; simp [hst]
      obtain ⟨hts, htt⟩ := tick_alive_stale m pid o hp hc hprobe hv
      obtain ⟨newPid, hnew⟩ := Option.isSome_iff_exists.mp hspawn
      have hstate := startProcess_ok_state m o.start newPid hnew
      rw [hts, htt, hstate, if_pos hex]
      have ih2 := ih { m with process := some { Process := some newPid },
                              lastModTime := o.start.now } newPid
        rfl hc hr0 hT1 hT2 hmtr hsz hrest
      have h1 : restarted ([Event.isProcessRunning, Event.signal0 pid, Event.checkLogs, Event.stat] ++
          (startProcess m o.start).trace) = true := by
        simp [restarted, startProcess_trace]
      rw [h1, ih2]
    · have hex : ¬ (m.timeout < o.now - m.lastModTime) := fun h => hst (hiff.mpr h)
      have hv : (checkLogs m o.stat o.now).val = .ok true := by
        rw [hstat, hck]; simp [hst]
      have hs : (checkLogs m o.stat o.now).state = m := by
        rw [hstat, hck]; simp [hst]
      obtain ⟨hts, htt⟩ := tick_alive_active m pid o hp hc hprobe hv
      rw [hts, htt, hs, if_neg hex]
      have h1 : restarted [Event.isProcessRunning, Event.signal0 pid, Event.checkLogs,
          Event.stat] = false := by
        simp [restarted]
      rw [h1, ih m pid hp hc h0 hT1 hT2 hmt hsz hrest]

theorem staleSchedule_after_restart (t0 I : Int) (q : Nat) (hI : 0 < I) (os : List TickOutcome) :
    ∀ (k : Nat) (r : Int), q < k → t0 + (q : Int) * I < r → punctual t0 I k os = true →
      ∀ i, i < os.length → k + i < 2 * q →
        (staleSchedule ((q : Int) * I) r os)[i]? = some false := by
  induction os with
  | nil => intro k r _ _ _ i hi _; simp at hi
  | cons o os ih =>
    intro k r hk hr hp i hi hki
    simp only [punctual, Bool.and_eq_true, decide_eq_true_eq] at hp
    obtain ⟨⟨⟨_, hup⟩, _⟩, hrest⟩ := hp
    have hmul : 0 ≤ (2 * (q : Int) - ((k : Int) + 1)) * I :=
      Int.mul_nonneg (by omega) (by omega)
    have hno : ¬ ((q : Int) * I < o.now - r) := by
      intro hcon
      nlinarith
    simp only [staleSchedule, if_neg hno]
    cases i with
    | zero => simp
    | succ i =>
      simp only [List.getElem?_cons_succ]
      exact ih (k + 1) r (by omega) hr hrest i (by simpa using hi) (by omega)

theorem staleSchedule_first_restart (t0 I : Int) (q : Nat) (hI : 0 < I) (os : List TickOutcome) :
    ∀ k : Nat, k ≤ q → punctual t0 I k os = true →
      ∀ i, i < os.length → k + i < 2 * q →
        (staleSchedule ((q : Int) * I) t0 os)[i]? = some (decide (k + i = q)) := by
  induction os with
  | nil => intro k _ _ i hi _; simp at hi
  | cons o os ih =>
    intro k hk hp i hi hki
    have hp2 := hp
    simp only [punctual, Bool.and_eq_true, decide_eq_true_eq] at hp2
    obtain ⟨⟨⟨hlow, hup⟩, hrs⟩, hrest⟩ := hp2
    by_cases hkq : k < q
    · have hmul : 0 ≤ ((q : Int) - ((k : Int) + 1)) * I :=
        Int.mul_nonneg (by omega) (by omega)
      have hno : ¬ ((q : Int) * I < o.now - t0) := by
        intro hcon
        nlinarith
      simp only [staleSchedule, if_neg hno]
      cases i with
      | zero =>
        have : ¬ (k = q) := by omega
        simp [this]
      | succ i =>
        simp only [List.getElem?_cons_succ]
        rw [ih (k + 1) (by omega) hrest i (by simpa using hi) (by omega)]
        congr 2
        simp only [eq_iff_iff]
        omega
    · have hkeq : k = q := by omega
      subst hkeq
      have hyes : (k : Int) * I < o.now - t0 := by omega
      simp only [staleSchedule, if_pos hyes]
      cases i with
      | zero => simp
      | succ i =>
        simp only [List.getElem?_cons_succ]
        rw [staleSchedule_after_restart t0 I k hI os (k + 1) o.start.now (by omega) (by omega)
          hrest i (by simpa using hi) (by omega)]
        have : ¬ (k + (i + 1) = k) := by omega
        simp [this]

/-- C8, as stated, fails, on runs in which tick `k` is checked 1 ms after
`k * interval` from the start (the ticker is created after the start has read
the clock) and a restart takes 3 ms, with timeout 10 s and interval 2 s, first
start at 100 s, child alive throughout.  On an empty log that never changes,
tick 5 is already more than 10 s after the start: the restarts are at ticks 5
and 11, not at 6 and 12.  On a log that holds 500 bytes from before and never
changes, tick 5 is more than 10 s after the start as well, yet none of the
ticks 1 to 5 restarts, because tick 1 takes the 500 bytes for growth over the
baseline 0 and resets the clock. -/
theorem C8_run_restarts_at_other_ticks :
    (ticks freshlyStarted
        (lateTicks (50 * Second) 0 freshlyStarted.lastModTime freshlyStarted.interval
          12)).2.map restarted =
      [false, false, false, false, true, false,
       false, false, false, false, true, false] ∧
    freshlyStarted.timeout <
      (lateTick (50 * Second) 500 freshlyStarted.lastModTime freshlyStarted.interval 5).now -
        freshlyStarted.lastModTime ∧
    (ticks freshlyStarted
        (lateTicks (50 * Second) 500 freshlyStarted.lastModTime freshlyStarted.interval
          5)).2.map restarted =
      [false, false, false, false, false] := by
  decide

/-- C8, amended: let the monitor hold a living child after a start at a
positive instant, and let the ticks find the child alive and a log file that
never changes, is not larger than the baseline size and was not modified after
the start, every restart succeeding.  Whatever the clock readings are, a tick
restarts exactly when its check reads the clock more than `timeout` after the
reading of the latest successful start (`staleSchedule`): the first restart is
at the first tick more than `timeout` after the start and at no earlier one,
and after a restart the next is at the first tick more than `timeout` after
that restart.  When the timeout is a whole number `q` of intervals (10 s and
2 s: `q = 5`) and tick `k` is checked after `k * interval` and before
`(k + 1) * interval` from the start, the first restart is at tick `q` and none
of the ticks `q + 1` to `2 * q - 1` restarts. -/
theorem C8_unchanged_log_restarts (m : Monitor) (pid : Nat) (modTime size : Int)
    (os : List TickOutcome)
    (hp : m.process = some { Process := some pid }) (hc : m.cancelled = false)
    (h0 : 0 < m.lastModTime)
    (hT1 : minDuration ≤ m.timeout) (hT2 : m.timeout < maxDuration)
    (hmt : modTime ≤ m.lastModTime) (hsz : size ≤ m.lastLogSize)
    (hq : unchangedLog modTime size os = true) :
    (ticks m os).2.map restarted = staleSchedule m.timeout m.lastModTime os ∧
    (∀ q : Nat, 1 ≤ q → 0 < m.interval → m.timeout = (q : Int) * m.interval →
      punctual m.lastModTime m.interval 1 os = true →
      ∀ i, i < os.length → i + 1 < 2 * q →
        ((ticks m os).2.map restarted)[i]? = some (decide (i + 1 = q))) := by
  have hpat := unchanged_ticks_pattern modTime size os m pid hp hc h0 hT1 hT2 hmt hsz hq
  refine ⟨hpat, ?_⟩
  intro q hq1 hI hTq hpun i hi hiq
  rw [hpat, hTq,
    staleSchedule_first_restart m.lastModTime m.interval q hI os 1 hq1 hpun i hi (by omega)]
  congr 2
  simp only [eq_iff_iff]
  omega

/-- Witness of C8 amended: timeout 10 s, interval 2 s, first start at 100 s on
an empty log that never changes, ticks checked 1 ms late: among the first 18
ticks exactly ticks 5, 11 and 17 restart. -/
theorem C8_unchanged_log_restarts_witness :
    unchangedLog (50 * Second) 0
      (lateTicks (50 * Second) 0 freshlyStarted.lastModTime freshlyStarted.interval 18) = true ∧
    punctual freshlyStarted.lastModTime freshlyStarted.interval 1
      (lateTicks (50 * Second) 0 freshlyStarted.lastModTime freshlyStarted.interval 18) = true ∧
    freshlyStarted.timeout = ((5 : Nat) : Int) * freshlyStarted.interval ∧
    (ticks freshlyStarted
        (lateTicks (50 * Second) 0 freshlyStarted.lastModTime freshlyStarted.interval
          18)).2.map restarted =
      [false, false, false, false, true, false, false, false, false, false, true,
       false, false, false, false, false, true, false] :=
  ⟨by decide, by decide, by decide,
   (C8_unchanged_log_restarts freshlyStarted 4242 (50 * Second) 0
      (lateTicks (50 * Second) 0 freshlyStarted.lastModTime freshlyStarted.interval 18)
      rfl rfl (by decide) (by decide) (by decide) (by decide) (by decide) (by decide)).1.trans
      (by decide)⟩

/-! ## C9 -/

theorem isProcessRunning_not_held (m : Monitor) (probeOk : Bool)
    (h : holdsProcess m = false) :
    isProcessRunning m probeOk =
      { val := false, state := m, trace := [Event.isProcessRunning] } := by
  unfold holdsProcess at h
  unfold isProcessRunning
  cases hp : m.process with
  | none => rfl
  | some c =>
    obtain ⟨p⟩ := c
    cases p with
    | none => rfl
    | some pid => simp [hp] at h

theorem tick_failed_retry (m : Monitor) (o : TickOutcome)
    (h : holdsProcess m = false) (hs : o.start.spawn = none) :
    (tick m o).state = { m with process := some { Process := none } } ∧
    (tick m o).trace.count Event.startProcess = 1 := by
  unfold tick
  rw [isProcessRunning_not_held m o.probeOk h]
  simp only [Bool.not_false, if_true]
  refine ⟨startProcess_fail_state m o.start hs, ?_⟩
  rw [List.count_append, startProcess_count]
  simp [List.count_cons]

theorem failed_retries (os : List TickOutcome) :
    ∀ m : Monitor, holdsProcess m = false → (∀ t ∈ os, t.start.spawn = none) →
      (∀ k, holdsProcess (ticks m (os.take k)).1 = false) ∧
      (∀ tr ∈ (ticks m os).2, tr.count Event.startProcess = 1) := by
  induction os with
  | nil =>
    intro m h _
    exact ⟨by intro k; simpa [ticks] using h, by intro tr htr; simp [ticks] at htr⟩
  | cons o os ih =>
    intro m h hall
    obtain ⟨hst, hcnt⟩ := tick_failed_retry m o h (hall o (List.mem_cons_self _ _))
    have hnext : holdsProcess (tick m o).state = false := by rw [hst]; rfl
    obtain ⟨ih1, ih2⟩ := ih (tick m o).state hnext
      (fun t ht => hall t (List.mem_cons_of_mem _ ht))
    constructor
    · intro k
      cases k with
      | zero => simpa [ticks] using h
      | succ k => simpa [ticks] using ih1 k
    · intro tr htr
      simp only [ticks, List.mem_cons] at htr
      rcases htr with rfl | htr
      · exact hcnt
      · exact ih2 tr htr

/-- C9: when `Start` fails, `startProcess` returns an error and leaves a stored
command that was never started (`m.process.Process` is nil), so the monitor
holds no process: the test `m.process == nil || m.process.Process == nil` of
`isProcessRunning` and `killProcessUnsafe` is true.  On every following tick
whose `Start` fails too, `startProcess` is called exactly once and the monitor
again holds no process afterwards. -/
theorem C9_failed_start_holds_no_process (m : Monitor) (o : StartOutcome)
    (h : o.spawn = none) :
    (∃ e, (startProcess m o).val = .error e) ∧
    (startProcess m o).state.process = some { Process := none } ∧
    holdsProcess (startProcess m o).state = false ∧
    ∀ os : List TickOutcome, (∀ t ∈ os, t.start.spawn = none) →
      (∀ k, holdsProcess (ticks (startProcess m o).state (os.take k)).1 = false) ∧
      (∀ tr ∈ (ticks (startProcess m o).state os).2, tr.count Event.startProcess = 1) := by
  have hst := startProcess_fail_state m o h
  have hv : (startProcess m o).val = .error "nie można uruchomić procesu" := by
    unfold startProcess
    simp only [h]
  have hh : holdsProcess (startProcess m o).state = false := by rw [hst]; rfl
  refine ⟨⟨_, hv⟩, by rw [hst], hh, ?_⟩
  intro os hall
  exact failed_retries os (startProcess m o).state hh hall

/-- Witness of C9: the restart of a running child fails at 112 s, and so do the
retries at 114 s and 116 s; no process is held after the failed restart nor
after the first retry. -/
theorem C9_failed_start_holds_no_process_witness :
    holdsProcess (startProcess freshlyStarted (failAt (112 * Second))).state = false ∧
    holdsProcess (ticks (startProcess freshlyStarted (failAt (112 * Second))).state
      ([failingTick (114 * Second), failingTick (116 * Second)].take 1)).1 = false :=
  ⟨(C9_failed_start_holds_no_process freshlyStarted (failAt (112 * Second)) rfl).2.2.1,
   ((C9_failed_start_holds_no_process freshlyStarted (failAt (112 * Second)) rfl).2.2.2
      [failingTick (114 * Second), failingTick (116 * Second)]
      (by intro t ht; simp at ht; rcases ht with rfl | rfl <;> rfl)).1 1⟩

/-! ## C10 -/

/-- C10: when the monitor holds a process, the context is not cancelled and the
signal-0 probe fails, `isProcessRunning` clears the stored process and returns
false; the tick then performs exactly the probe and one `startProcess` with its
`Start` (no `checkLogs`, no `os.Stat`, no kill), and if `Start` succeeds the
monitor holds the new process and `lastModTime` is the instant of the
restart, everything else being unchanged. -/
theorem C10_dead_child_restarted (m : Monitor) (pid : Nat) (o : TickOutcome)
    (hp : m.process = some { Process := some pid }) (hc : m.cancelled = false)
    (hprobe : o.probeOk = false) :
    (isProcessRunning m o.probeOk).val = false ∧
    (isProcessRunning m o.probeOk).state.process = none ∧
    (tick m o).trace =
      [Event.isProcessRunning, Event.signal0 pid, Event.startProcess, Event.spawn] ∧
    Event.checkLogs ∉ (tick m o).trace ∧
    Event.stat ∉ (tick m o).trace ∧
    (tick m o).trace.count Event.startProcess = 1 ∧
    ∀ newPid, o.start.spawn = some newPid →
      (tick m o).state =
        { m with process := some { Process := some newPid }, lastModTime := o.start.now } ∧
      holdsProcess (tick m o).state = true := by
  have hrun : isProcessRunning m o.probeOk =
      { val := false, state := { m with process := none },
        trace := [Event.isProcessRunning, Event.signal0 pid] } := by
    unfold isProcessRunning
    simp [hp, hc, hprobe]
  have htick : tick m o =
      { val := (), state := (startProcess { m with process := none } o.start).state,
        trace := [Event.isProcessRunning, Event.signal0 pid] ++
          (startProcess { m with process := none } o.start).trace } := by
    unfold tick
    rw [hrun]
    rfl
  have htrace : (startProcess { m with process := none } o.start).trace =
      [Event.startProcess, Event.spawn] := by
    rw [startProcess_trace]
    simp
  rw [htick, hrun, htrace]
  refine ⟨rfl, rfl, rfl, by simp, by simp, by simp [List.count_cons], ?_⟩
  intro newPid hs
  have hst := startProcess_ok_state { m with process := none } o.start newPid hs
  constructor
  · show (startProcess { m with process := none } o.start).state = _
    rw [hst]
  · show holdsProcess (startProcess { m with process := none } o.start).state = true
    rw [hst]
    rfl

/-- Witness of C10: the child started at 100 s is gone at the tick of 102 s and
child 4243 is started in its place. -/
theorem C10_dead_child_restarted_witness :
    (tick freshlyStarted
        { probeOk := false, stat := some (50 * Second, 0), now := 102 * Second,
          start := startAt (102 * Second) 4243 }).trace =
      [Event.isProcessRunning, Event.signal0 4242, Event.startProcess, Event.spawn] ∧
    (tick freshlyStarted
        { probeOk := false, stat := some (50 * Second, 0), now := 102 * Second,
          start := startAt (102 * Second) 4243 }).state =
      { freshlyStarted with process := some { Process := some 4243 },
                            lastModTime := 102 * Second } :=
  ⟨(C10_dead_child_restarted freshlyStarted 4242
      { probeOk := false, stat := some (50 * Second, 0), now := 102 * Second,
        start := startAt (102 * Second) 4243 } rfl rfl rfl).2.2.1,
   ((C10_dead_child_restarted freshlyStarted 4242
      { probeOk := false, stat := some (50 * Second, 0), now := 102 * Second,
        start := startAt (102 * Second) 4243 } rfl rfl rfl).2.2.2.2.2.2 4243 rfl).1⟩

/-! ## C11 -/

/-- C11: when the monitor holds a process, SIGTERM is delivered and the child
does not exit before the 5 s timer, `killProcessUnsafe` (and `killProcess`,
which is the same under the lock) sends SIGKILL, then waits in the `select`
against the 2 s timer and nothing more, and returns with the stored process
cleared and the rest of the state untouched, whether the child was reaped
before that timer (`k.reapedAfterKill`) or not. -/
theorem C11_forced_kill_clears_handle (m : Monitor) (pid : Nat) (k : KillOutcome)
    (hp : m.process = some { Process := some pid })
    (hs : k.sigtermOk = true) (hg : k.exitedInGrace = false) :
    (killProcessUnsafe m k).trace =
      [Event.killProcessUnsafe, Event.sigterm pid, Event.waitGrace,
       Event.sigkill pid, Event.waitForced] ∧
    (killProcessUnsafe m k).trace.map blockLimit =
      [some 0, some 0, some (5 * Second), some 0, some (2 * Second)] ∧
    (killProcessUnsafe m k).state = { m with process := none } ∧
    holdsProcess (killProcessUnsafe m k).state = false ∧
    (killProcess m k).state = { m with process := none } := by
  have hk : killProcessUnsafe m k =
      { val := (), state := { m with process := none },
        trace := [Event.killProcessUnsafe, Event.sigterm pid, Event.waitGrace,
                  Event.sigkill pid, Event.waitForced] } := by
    unfold killProcessUnsafe
    simp [hp, hs, hg]
  unfold killProcess
  rw [hk]
  exact ⟨rfl, rfl, rfl, rfl, rfl⟩

/-- Witness of C11: the child started at 100 s ignores SIGTERM and is not
reaped within 2 s of SIGKILL. -/
theorem C11_forced_kill_clears_handle_witness :
    (killProcessUnsafe freshlyStarted stubbornKill).trace =
      [Event.killProcessUnsafe, Event.sigterm 4242, Event.waitGrace,
       Event.sigkill 4242, Event.waitForced] ∧
    holdsProcess (killProcessUnsafe freshlyStarted stubbornKill).state = false :=
  ⟨(C11_forced_kill_clears_handle freshlyStarted 4242 stubbornKill rfl rfl rfl).1,
   (C11_forced_kill_clears_handle freshlyStarted 4242 stubbornKill rfl rfl rfl).2.2.2.1⟩

/-! ## C12 -/

theorem killProcess_trace_shape (m : Monitor) (k : KillOutcome) :
    (killProcess m k).trace.head? = some Event.killProcessUnsafe ∧
    Event.startProcess ∉ (killProcess m k).trace ∧
    Event.spawn ∉ (killProcess m k).trace ∧
    Event.isProcessRunning ∉ (killProcess m k).trace ∧
    Event.checkLogs ∉ (killProcess m k).trace := by
  unfold killProcess killProcessUnsafe
  split
  · simp
  · split
    · simp
    · split_ifs <;> simp

theorem loop_returned_cut (events : List LoopEvent) :
    ∀ m : Monitor, (loop m events).val = true →
      ∀ more, loop m (events ++ more) = loop m events := by
  induction events with
  | nil => intro m h; simp [loop] at h
  | cons e events ih =>
    intro m h more
    cases e with
    | signal k => rfl
    | ctxDone k => rfl
    | tick o =>
      have h2 : (loop (tick m o).state events).val = true := by simpa [loop] using h
      have h3 := ih (tick m o).state h2 more
      show ({ val := (loop (tick m o).state (events ++ more)).val,
              state := (loop (tick m o).state (events ++ more)).state,
              trace := (tick m o).trace ++ (loop (tick m o).state (events ++ more)).trace } :
            Step Bool) = _
      rw [h3]
      rfl

theorem loop_return_after_kill (events : List LoopEvent) :
    ∀ m : Monitor, (loop m events).val = true →
      ∃ before m2 k, (loop m events).trace = before ++ (killProcess m2 k).trace ∧
        (loop m events).state = (killProcess m2 k).state := by
  induction events with
  | nil => intro m h; simp [loop] at h
  | cons e events ih =>
    intro m h
    cases e with
    | signal k => exact ⟨[], { m with cancelled := true }, k, rfl, rfl⟩
    | ctxDone k => exact ⟨[], m, k, rfl, rfl⟩
    | tick o =>
      have h2 : (loop (tick m o).state events).val = true := by simpa [loop] using h
      obtain ⟨b, m2, k, h3, h4⟩ := ih (tick m o).state h2
      refine ⟨(tick m o).trace ++ b, m2, k, ?_, ?_⟩
      · show (tick m o).trace ++ (loop (tick m o).state events).trace = _
        rw [h3, List.append_assoc]
      · exact h4

theorem Procesy_loop_return_after_kill (tickArm : Monitor → TickOutcome → Option (Step Unit))
    (events : List Procesy.LoopEvent) :
    ∀ (m : Monitor) (r : Step Bool), Procesy.loop tickArm m events = some r → r.val = true →
      ∃ before m2 k killed, Procesy.killProcess m2 k = some killed ∧
        r.trace = before ++ killed.trace ∧ r.state = killed.state := by
  induction events with
  | nil =>
    intro m r h hv
    simp only [Procesy.loop, Option.some.injEq] at h
    rw [← h] at hv
    cases hv
  | cons e events ih =>
    intro m r h hv
    cases e with
    | signal k =>
      simp only [Procesy.loop, Option.map_eq_some'] at h
      obtain ⟨killed, hk, hr⟩ := h
      exact ⟨[], m, k, killed, hk, by rw [← hr]; rfl, by rw [← hr]⟩
    | tick o =>
      simp only [Procesy.loop] at h
      cases ht : tickArm m o with
      | none => simp [ht] at h
      | some ticked =>
        simp only [ht, Option.map_eq_some'] at h
        obtain ⟨r2, hr2, hr⟩ := h
        have hv2 : r2.val = true := by rw [← hr] at hv; exact hv
        obtain ⟨b, m2, k, killed, hk, h3, h4⟩ := ih ticked.state r2 hr2 hv2
        refine ⟨ticked.trace ++ b, m2, k, killed, hk, ?_, ?_⟩
        · rw [← hr]
          show ticked.trace ++ r2.trace = _
          rw [h3, List.append_assoc]
        · rw [← hr]; exact h4

theorem Procesy_killProcess_returns (m : Monitor) (k : KillOutcome) :
    (Procesy.killProcess m k).isSome =
      !(holdsProcess m && k.sigtermOk && !k.exitedInGrace && !k.reapedAfterKill) ∧
    ∀ killed, Procesy.killProcess m k = some killed →
      killed.trace.head? = some Event.killProcess ∧
      Event.startProcess ∉ killed.trace ∧ Event.spawn ∉ killed.trace ∧
      Event.isProcessRunning ∉ killed.trace ∧ Event.checkLogs ∉ killed.trace := by
  obtain ⟨st, ex, re⟩ := k
  unfold Procesy.killProcess holdsProcess
  cases hp : m.process with
  | none => simp
  | some c =>
    obtain ⟨p⟩ := c
    cases p with
    | none => simp
    | some pid =>
      cases st <;> cases ex <;> cases re <;> simp

/-- C12, as stated, fails for the loop of procesy.go: the monitor holds the
child started at 100 s, a signal arrives, the child does not exit within 5 s
of SIGTERM and is not reaped after SIGKILL.  The `Wait` of line 153 has no
timer, so `killProcess` does not return and neither does the loop; the loop of
v2.go returns on the same outcome. -/
theorem C12_procesy_loop_stuck_in_wait :
    holdsProcess freshlyStarted = true ∧
    (Procesy.killProcess freshlyStarted stubbornKill).isSome = false ∧
    (Procesy.loop Procesy.idleTick freshlyStarted
      [Procesy.LoopEvent.signal stubbornKill]).isSome = false ∧
    (loop freshlyStarted [LoopEvent.signal stubbornKill]).val = true := by
  decide

/-- C12, amended.  v2.go: when the `select` of the loop receives a signal or
the closing of the context, in any monitor state, the loop calls `killProcess`
on the monitor (with the process it holds), does nothing else and returns: the
events that follow are not looked at, and the trace of the shutdown begins
with the kill and contains no `startProcess`, no `Start`, no
`isProcessRunning`, no `checkLogs`; whenever the loop has returned, the events
after that make no difference and the last thing it did was a `killProcess`,
which left the final state.  procesy.go: the only shutdown source is the
signal; whatever the tick arm does, the loop answers a signal with its
`killProcess` alone, looks at no later event, and returns exactly when that call
returns, that is unless the monitor holds a process, SIGTERM is delivered, and
the child neither exits within 5 s nor is reaped after SIGKILL; when it
returns, the trace of the shutdown begins with the kill and contains no start,
and each return of that loop is the end of a `killProcess`. -/
theorem C12_shutdown_kills_and_returns (m : Monitor) (k : KillOutcome) :
    (∀ after : List LoopEvent,
      loop m (LoopEvent.signal k :: after) =
        { val := true, state := (killProcess { m with cancelled := true } k).state,
          trace := (killProcess { m with cancelled := true } k).trace } ∧
      loop m (LoopEvent.ctxDone k :: after) =
        { val := true, state := (killProcess m k).state, trace := (killProcess m k).trace }) ∧
    (∀ m2 : Monitor,
      (killProcess m2 k).trace.head? = some Event.killProcessUnsafe ∧
      Event.startProcess ∉ (killProcess m2 k).trace ∧
      Event.spawn ∉ (killProcess m2 k).trace ∧
      Event.isProcessRunning ∉ (killProcess m2 k).trace ∧
      Event.checkLogs ∉ (killProcess m2 k).trace) ∧
    (∀ events : List LoopEvent, (loop m events).val = true →
      (∀ more, loop m (events ++ more) = loop m events) ∧
      ∃ before m2 k2, (loop m events).trace = before ++ (killProcess m2 k2).trace ∧
        (loop m events).state = (killProcess m2 k2).state) ∧
    (∀ (tickArm : Monitor → TickOutcome → Option (Step Unit)) (after : List Procesy.LoopEvent),
      Procesy.loop tickArm m (Procesy.LoopEvent.signal k :: after) =
        (Procesy.killProcess m k).map
          (fun killed => { val := true, state := killed.state, trace := killed.trace }) ∧
      (Procesy.loop tickArm m (Procesy.LoopEvent.signal k :: after)).isSome =
        !(holdsProcess m && k.sigtermOk && !k.exitedInGrace && !k.reapedAfterKill) ∧
      ∀ r, Procesy.loop tickArm m (Procesy.LoopEvent.signal k :: after) = some r →
        r.val = true ∧ r.trace.head? = some Event.killProcess ∧
        Event.startProcess ∉ r.trace ∧ Event.spawn ∉ r.trace ∧
        Event.isProcessRunning ∉ r.trace ∧ Event.checkLogs ∉ r.trace) ∧
    (∀ (tickArm : Monitor → TickOutcome → Option (Step Unit)) (events : List Procesy.LoopEvent)
        (r : Step Bool), Procesy.loop tickArm m events = some r → r.val = true →
      ∃ before m2 k2 killed, Procesy.killProcess m2 k2 = some killed ∧
        r.trace = before ++ killed.trace ∧ r.state = killed.state) := by
  refine ⟨fun _ => ⟨rfl, rfl⟩, fun m2 => killProcess_trace_shape m2 k, ?_, ?_, ?_⟩
  · intro events h
    exact ⟨loop_returned_cut events m h, loop_return_after_kill events m h⟩
  · intro tickArm after
    have hloop : Procesy.loop tickArm m (Procesy.LoopEvent.signal k :: after) =
        (Procesy.killProcess m k).map
          (fun killed => { val := true, state := killed.state, trace := killed.trace }) := rfl
    obtain ⟨hsome, hshape⟩ := Procesy_killProcess_returns m k
    refine ⟨hloop, ?_, ?_⟩
    · rw [hloop, Option.isSome_map', hsome]
    · intro r hr
      rw [hloop, Option.map_eq_some'] at hr
      obtain ⟨killed, hk, hkr⟩ := hr
      rw [← hkr]
      exact ⟨rfl, hshape killed hk⟩
  · intro tickArm events r h hv
    exact Procesy_loop_return_after_kill tickArm events m r h hv

/-- Witness of C12 amended: after a tick on a quiet log at 102 s a signal
arrives; the child ignores SIGTERM.  The loop of v2.go has returned, and a tick
at 104 s that would follow changes nothing; the loop of procesy.go returns on
a signal when the child exits on SIGTERM. -/
theorem C12_shutdown_kills_and_returns_witness :
    (loop freshlyStarted
        [LoopEvent.tick (quietTick (50 * Second) 0 (102 * Second) gracefulKill 4243),
         LoopEvent.signal stubbornKill]).val = true ∧
    loop freshlyStarted
        ([LoopEvent.tick (quietTick (50 * Second) 0 (102 * Second) gracefulKill 4243),
          LoopEvent.signal stubbornKill] ++
         [LoopEvent.tick (quietTick (50 * Second) 0 (104 * Second) gracefulKill 4244)]) =
      loop freshlyStarted
        [LoopEvent.tick (quietTick (50 * Second) 0 (102 * Second) gracefulKill 4243),
         LoopEvent.signal stubbornKill] ∧
    (Procesy.loop Procesy.idleTick freshlyStarted
      [Procesy.LoopEvent.signal gracefulKill]).isSome = true :=
  ⟨by decide,
   ((C12_shutdown_kills_and_returns freshlyStarted stubbornKill).2.2.1
      [LoopEvent.tick (quietTick (50 * Second) 0 (102 * Second) gracefulKill 4243),
       LoopEvent.signal stubbornKill] (by decide)).1
      [LoopEvent.tick (quietTick (50 * Second) 0 (104 * Second) gracefulKill 4244)],
   ((C12_shutdown_kills_and_returns freshlyStarted gracefulKill).2.2.2.1
      Procesy.idleTick []).2.1.trans (by decide)⟩

/-! ## C13 -/

theorem isProcessRunning_baseline (m : Monitor) (probeOk : Bool) :
    (isProcessRunning m probeOk).state.lastModTime = m.lastModTime ∧
    (isProcessRunning m probeOk).state.lastLogSize = m.lastLogSize := by
  unfold isProcessRunning
  split
  · exact ⟨rfl, rfl⟩
  · split
    · exact ⟨rfl, rfl⟩
    · split_ifs <;> exact ⟨rfl, rfl⟩

theorem startProcess_baseline (m : Monitor) (o : StartOutcome)
    (hm : 0 < m.lastModTime) (ho : 0 < o.now) :
    0 < (startProcess m o).state.lastModTime ∧
    (startProcess m o).state.lastLogSize = m.lastLogSize := by
  cases hs : o.spawn with
  | none => rw [startProcess_fail_state m o hs]; exact ⟨hm, rfl⟩
  | some pid => rw [startProcess_ok_state m o pid hs]; exact ⟨ho, rfl⟩

theorem startProcess_lastLogSize (m : Monitor) (o : StartOutcome) :
    (startProcess m o).state.lastLogSize = m.lastLogSize := by
  cases hs : o.spawn with
  | none => rw [startProcess_fail_state m o hs]
  | some pid => rw [startProcess_ok_state m o pid hs]

theorem checkLogs_lastModTime_pos (m : Monitor) (st : Option (Int × Int)) (now : Int)
    (hm : 0 < m.lastModTime) (hn : 0 < now) :
    0 < (checkLogs m st now).state.lastModTime := by
  cases st with
  | none => exact hm
  | some info =>
    obtain ⟨modTime, size⟩ := info
    rw [checkLogs_baseline m modTime size now (by omega)]
    split_ifs with h1 h2 h3
    · exact hn
    · show 0 < modTime
      omega
    · exact hm
    · exact hm

theorem tick_not_alive (m : Monitor) (o : TickOutcome)
    (h : (isProcessRunning m o.probeOk).val = false) :
    tick m o =
      { val := (), state := (startProcess (isProcessRunning m o.probeOk).state o.start).state,
        trace := (isProcessRunning m o.probeOk).trace ++
          (startProcess (isProcessRunning m o.probeOk).state o.start).trace } := by
  unfold tick
  simp [h]

theorem tick_lastModTime_pos (m : Monitor) (o : TickOutcome)
    (hm : 0 < m.lastModTime) (hn : 0 < o.now) (hsn : 0 < o.start.now) :
    0 < (tick m o).state.lastModTime := by
  cases ha : (isProcessRunning m o.probeOk).val with
  | false =>
    rw [tick_not_alive m o ha]
    exact (startProcess_baseline _ o.start
      (by rw [(isProcessRunning_baseline m o.probeOk).1]; exact hm) hsn).1
  | true =>
    obtain ⟨pid, hp, hc, hprobe, _⟩ := isProcessRunning_true m o.probeOk ha
    have hck := checkLogs_lastModTime_pos m o.stat o.now hm hn
    cases hv : (checkLogs m o.stat o.now).val with
    | error e =>
      have ht : tick m o =
          { val := (), state := (checkLogs m o.stat o.now).state,
            trace := [Event.isProcessRunning, Event.signal0 pid] ++
              (checkLogs m o.stat o.now).trace } := by
        unfold tick
        rw [hprobe, isProcessRunning_alive m pid hp hc]
        simp only [hv]
        rfl
      rw [ht]; exact hck
    | ok b =>
      cases b with
      | true =>
        rw [(tick_alive_active m pid o hp hc hprobe hv).1]; exact hck
      | false =>
        rw [(tick_alive_stale m pid o hp hc hprobe hv).1]
        exact (startProcess_baseline m o.start hm hsn).1

theorem checkCalls_pos (events : List LoopEvent) :
    ∀ m : Monitor, 0 < m.lastModTime →
      (∀ o, LoopEvent.tick o ∈ events → 0 < o.now ∧ 0 < o.start.now) →
      ∀ s ∈ checkCalls m events, 0 < s.lastModTime := by
  induction events with
  | nil => intro m _ _ s hs; simp [checkCalls] at hs
  | cons e events ih =>
    intro m hm hclock s hs
    cases e with
    | signal k => simp [checkCalls] at hs
    | ctxDone k => simp [checkCalls] at hs
    | tick o =>
      obtain ⟨hn, hsn⟩ := hclock o (List.mem_cons_self _ _)
      simp only [checkCalls, List.mem_append] at hs
      rcases hs with hs | hs
      · split_ifs at hs
        · simp only [List.mem_singleton] at hs
          rw [hs, (isProcessRunning_baseline m o.probeOk).1]
          exact hm
        · simp at hs
      · exact ih (tick m o).state (tick_lastModTime_pos m o hm hn hsn)
          (fun o2 ho2 => hclock o2 (List.mem_cons_of_mem _ ho2)) s hs

theorem checkCalls_head_size (events : List LoopEvent) :
    ∀ (m s : Monitor), (checkCalls m events).head? = some s → s.lastLogSize = m.lastLogSize := by
  induction events with
  | nil => intro m s hs; simp [checkCalls] at hs
  | cons e events ih =>
    intro m s hs
    cases e with
    | signal k => simp [checkCalls] at hs
    | ctxDone k => simp [checkCalls] at hs
    | tick o =>
      simp only [checkCalls] at hs
      cases ha : (isProcessRunning m o.probeOk).val with
      | true =>
        simp only [ha, if_true, List.singleton_append, List.head?_cons, Option.some.injEq] at hs
        rw [← hs]
        exact (isProcessRunning_baseline m o.probeOk).2
      | false =>
        simp only [ha, Bool.false_eq_true, if_false, List.nil_append] at hs
        rw [ih (tick m o).state s hs, tick_not_alive m o ha]
        show (startProcess (isProcessRunning m o.probeOk).state o.start).state.lastLogSize = _
        rw [startProcess_lastLogSize]
        exact (isProcessRunning_baseline m o.probeOk).2

theorem startProcess_no_checkLogs (m : Monitor) (o : StartOutcome) :
    Event.checkLogs ∉ (startProcess m o).trace := by
  rw [startProcess_trace]
  have h := (killProcess_trace_shape m o.kill).2.2.2.2
  unfold killProcess at h
  split_ifs <;> simp [h]

theorem isProcessRunning_no_checkLogs (m : Monitor) (probeOk : Bool) :
    Event.checkLogs ∉ (isProcessRunning m probeOk).trace := by
  unfold isProcessRunning
  split
  · simp
  · split
    · simp
    · split_ifs <;> simp

theorem tick_count_checkLogs (m : Monitor) (o : TickOutcome) :
    (tick m o).trace.count Event.checkLogs =
      (if (isProcessRunning m o.probeOk).val then [(isProcessRunning m o.probeOk).state]
        else []).length := by
  cases ha : (isProcessRunning m o.probeOk).val with
  | false =>
    rw [tick_not_alive m o ha]
    simp [List.count_append,
      List.count_eq_zero_of_not_mem (isProcessRunning_no_checkLogs m o.probeOk),
      List.count_eq_zero_of_not_mem (startProcess_no_checkLogs _ o.start)]
  | true =>
    obtain ⟨pid, hp, hc, hprobe, _⟩ := isProcessRunning_true m o.probeOk ha
    cases hv : (checkLogs m o.stat o.now).val with
    | error e =>
      have ht : (tick m o).trace =
          [Event.isProcessRunning, Event.signal0 pid] ++ (checkLogs m o.stat o.now).trace := by
        unfold tick
        rw [hprobe, isProcessRunning_alive m pid hp hc]
        simp only [hv]
        rfl
      rw [ht, checkLogs_trace]
      simp [List.count_cons]
    | ok b =>
      cases b with
      | true =>
        rw [(tick_alive_active m pid o hp hc hprobe hv).2]
        simp [List.count_cons]
      | false =>
        rw [(tick_alive_stale m pid o hp hc hprobe hv).2]
        simp [List.count_append, List.count_cons,
          List.count_eq_zero_of_not_mem (startProcess_no_checkLogs m o.start)]

theorem loop_count_checkLogs (events : List LoopEvent) :
    ∀ m : Monitor,
      (loop m events).trace.count Event.checkLogs = (checkCalls m events).length := by
  induction events with
  | nil => intro m; rfl
  | cons e events ih =>
    intro m
    cases e with
    | signal k =>
      simp [loop, checkCalls,
        List.count_eq_zero_of_not_mem (killProcess_trace_shape _ k).2.2.2.2]
    | ctxDone k =>
      simp [loop, checkCalls,
        List.count_eq_zero_of_not_mem (killProcess_trace_shape _ k).2.2.2.2]
    | tick o =>
      show ((tick m o).trace ++ (loop (tick m o).state events).trace).count Event.checkLogs = _
      rw [List.count_append, ih, tick_count_checkLogs]
      simp [checkCalls]

theorem Run_fatal_of_failed_start (m : Monitor) (validateOk : Bool) (first : StartOutcome)
    (events : List LoopEvent) (h : first.spawn = none) :
    (Run m validateOk first events).val = RunStatus.fatal ∧
    Event.checkLogs ∉ (Run m validateOk first events).trace := by
  have hv : (startProcess m first).val = .error "nie można uruchomić procesu" := by
    unfold startProcess
    simp only [h]
  unfold Run
  cases validateOk with
  | false => simp
  | true =>
    simp only [Bool.not_true, Bool.false_eq_true, if_false, hv]
    exact ⟨trivial, startProcess_no_checkLogs m first⟩

/-- C13: `Run` on a monitor made by `NewMonitor`, with a first `startProcess`
that succeeds, every reading of the clock being after the zero instant.  The
loop starts from the state that start leaves; the calls of `checkLogs` the loop
makes are those listed by `checkCalls`; at each of them `lastModTime` is not
the zero instant, so the test `m.lastModTime.IsZero()` fails and the warm-up
branch is skipped; and at the first of them the baseline size is still the 0 of
`NewMonitor`, so that check reports growth exactly when the file is not
empty, and otherwise goes on to the modification time and the timeout. -/
theorem C13_loop_never_warms_up (command logFile : String) (timeout interval : Int)
    (first : StartOutcome) (pid : Nat) (events : List LoopEvent)
    (hs : first.spawn = some pid) (h0 : 0 < first.now)
    (hclock : ∀ o, LoopEvent.tick o ∈ events → 0 < o.now ∧ 0 < o.start.now) :
    (Run (NewMonitor command logFile timeout interval) true first events).trace =
      (startProcess (NewMonitor command logFile timeout interval) first).trace ++
        (loop (startProcess (NewMonitor command logFile timeout interval) first).state
          events).trace ∧
    (startProcess (NewMonitor command logFile timeout interval) first).state.lastModTime =
      first.now ∧
    (loop (startProcess (NewMonitor command logFile timeout interval) first).state
        events).trace.count Event.checkLogs =
      (checkCalls (startProcess (NewMonitor command logFile timeout interval) first).state
        events).length ∧
    (∀ s ∈ checkCalls (startProcess (NewMonitor command logFile timeout interval) first).state
        events, IsZero s.lastModTime = false) ∧
    (∀ s, (checkCalls (startProcess (NewMonitor command logFile timeout interval) first).state
        events).head? = some s →
      s.lastLogSize = 0 ∧
      ∀ modTime size now, checkLogs s (some (modTime, size)) now =
        if 0 < size then
          { val := .ok true, state := { s with lastModTime := now, lastLogSize := size },
            trace := [Event.checkLogs, Event.stat] }
        else if s.lastModTime < modTime then
          { val := .ok true, state := { s with lastModTime := modTime, lastLogSize := size },
            trace := [Event.checkLogs, Event.stat] }
        else if s.timeout < Since now s.lastModTime then
          { val := .ok false, state := s, trace := [Event.checkLogs, Event.stat] }
        else
          { val := .ok true, state := s, trace := [Event.checkLogs, Event.stat] }) := by
  have hst := startProcess_ok_state (NewMonitor command logFile timeout interval) first pid hs
  have hv : (startProcess (NewMonitor command logFile timeout interval) first).val = .ok () := by
    unfold startProcess
    simp only [hs]
  have hpos : 0 < (startProcess (NewMonitor command logFile timeout interval)
      first).state.lastModTime := by
    rw [hst]; exact h0
  have hall := checkCalls_pos events _ hpos hclock
  refine ⟨?_, by rw [hst], loop_count_checkLogs events _, ?_, ?_⟩
  · unfold Run
    simp only [Bool.not_true, Bool.false_eq_true, if_false, hv]
  · intro s hmem
    have := hall s hmem
    simp only [IsZero, beq_eq_false_iff_ne, ne_eq]
    omega
  · intro s hhead
    have hmem : s ∈ checkCalls (startProcess (NewMonitor command logFile timeout interval)
        first).state events := List.mem_of_mem_head? hhead
    have hsize : s.lastLogSize = 0 := by
      rw [checkCalls_head_size events _ s hhead, hst]
      rfl
    refine ⟨hsize, ?_⟩
    intro modTime size now
    have hne : s.lastModTime ≠ 0 := by have := hall s hmem; omega
    rw [checkLogs_baseline s modTime size now hne, hsize]

/-- Witness of C13: a run with a crash at 102 s, two checks at 104 s and 106 s
and a signal; both checks find a non-zero `lastModTime`, and the first finds
the baseline size 0. -/
theorem C13_loop_never_warms_up_witness :
    ((checkCalls (startProcess (NewMonitor "cmd" "app.log" 10 2)
        (startAt (100 * Second) 4242)).state crashThenShutdown).all
      (fun s => !IsZero s.lastModTime)) = true ∧
    (loop (startProcess (NewMonitor "cmd" "app.log" 10 2)
        (startAt (100 * Second) 4242)).state crashThenShutdown).trace.count Event.checkLogs =
      (checkCalls (startProcess (NewMonitor "cmd" "app.log" 10 2)
        (startAt (100 * Second) 4242)).state crashThenShutdown).length ∧
    ((checkCalls (startProcess (NewMonitor "cmd" "app.log" 10 2)
        (startAt (100 * Second) 4242)).state crashThenShutdown).map
      (fun s => s.lastLogSize)) = [0, 500] :=
  ⟨List.all_eq_true.mpr (fun s hmem => by
      simp [(C13_loop_never_warms_up "cmd" "app.log" 10 2 (startAt (100 * Second) 4242) 4242
        crashThenShutdown rfl (by decide)
        (by intro o ho
            simp only [crashThenShutdown, List.mem_cons, LoopEvent.tick.injEq, List.mem_singleton,
              List.not_mem_nil, or_false] at ho
            rcases ho with rfl | rfl | rfl | ho
            · decide
            · decide
            · decide
            · cases ho)).2.2.2.1 s hmem]),
   (C13_loop_never_warms_up "cmd" "app.log" 10 2 (startAt (100 * Second) 4242) 4242
      crashThenShutdown rfl (by decide)
      (by intro o ho
          simp only [crashThenShutdown, List.mem_cons, LoopEvent.tick.injEq, List.mem_singleton,
            List.not_mem_nil, or_false] at ho
          rcases ho with rfl | rfl | rfl | ho
          · decide
          · decide
          · decide
          · cases ho)).2.2.1,
   by decide⟩

end SkryptProcesy
